import Mathlib

/-!
# PS-OCTA-OCE coordinator: shallow embedding and verified properties

Sources: `src/src/coordinator_node.cpp` (class `CoordinatorNode`) and, in the section on the
action servers, `src/src/move_z_angle_node.cpp` and `src/src/focus_node.cpp`.

Modelling conventions
* `double` members are idealised as rationals (`ℚ`): no rounding, NaN or infinities.
* `unsigned int pc_` is a `Nat`; `pc_ + 1`, `pc_++` and `++pc_` are taken modulo `2 ^ 32`.
* `int circle_state_` and `int num_pt_` are `Int` (signed overflow is undefined in C++ and
  is not modelled).
* A goal handle (`shared_ptr<ClientGoalHandle>`) is `Option GoalStatus`: `none` is the null
  pointer, `some st` a handle whose `get_status()` currently returns `st`.
* Calls into the ROS action clients are recorded as a list of `Effect`s returned by the
  function that performs them.
* The status string `msg_`, logging, `sleep_for`, the mutex and the change-detection copies
  `old_sub_msg_` / `old_pub_msg_` carry no control flow and are left out.
-/

namespace Coordinator

/-- The C++ `enum class UserAction`. -/
inductive UserAction
  | None
  | Freedrive
  | Reset
  | MoveZangle
  | Focus
  | Scan
  deriving DecidableEq

/-- The C++ `enum class Mode`. -/
inductive Mode
  | ROBOT
  | OCT
  | OCTA
  | OCE
  deriving DecidableEq

/-- The C++ `enum class ScanState`. -/
inductive ScanState
  | IDLE
  | BUSY
  deriving DecidableEq

/-- The C++ `struct Step`. -/
structure Step where
  action : UserAction
  mode : Mode
  arg : ℚ
  deriving DecidableEq

/-- The constant `full_scan_recipe` (lines 72-139), entry by entry. -/
def full_scan_recipe : List Step :=
  [
    ⟨.Focus, .ROBOT, 0⟩,
    -- octa
    ⟨.Scan, .OCTA, 0⟩,
    -- first 60
    ⟨.MoveZangle, .OCT, 10⟩,
    ⟨.Scan, .OCT, 0⟩,
    ⟨.Scan, .OCE, 0⟩,
    ⟨.MoveZangle, .OCT, 10⟩,
    ⟨.Scan, .OCT, 0⟩,
    ⟨.Scan, .OCE, 0⟩,
    ⟨.MoveZangle, .OCT, 10⟩,
    ⟨.Scan, .OCT, 0⟩,
    ⟨.Scan, .OCE, 0⟩,
    ⟨.MoveZangle, .OCT, 10⟩,
    ⟨.Scan, .OCT, 0⟩,
    ⟨.Scan, .OCE, 0⟩,
    ⟨.MoveZangle, .OCT, 10⟩,
    ⟨.Scan, .OCT, 0⟩,
    ⟨.Scan, .OCE, 0⟩,
    ⟨.MoveZangle, .OCT, 10⟩,
    ⟨.Scan, .OCT, 0⟩,
    ⟨.Scan, .OCE, 0⟩,
    -- octa
    ⟨.Scan, .OCTA, 0⟩,
    -- second 60
    ⟨.MoveZangle, .OCT, 10⟩,
    ⟨.Scan, .OCT, 0⟩,
    ⟨.Scan, .OCE, 0⟩,
    ⟨.MoveZangle, .OCT, 10⟩,
    ⟨.Scan, .OCT, 0⟩,
    ⟨.Scan, .OCE, 0⟩,
    ⟨.MoveZangle, .OCT, 10⟩,
    ⟨.Scan, .OCT, 0⟩,
    ⟨.Scan, .OCE, 0⟩,
    ⟨.MoveZangle, .OCT, 10⟩,
    ⟨.Scan, .OCT, 0⟩,
    ⟨.Scan, .OCE, 0⟩,
    ⟨.MoveZangle, .OCT, 10⟩,
    ⟨.Scan, .OCT, 0⟩,
    ⟨.Scan, .OCE, 0⟩,
    ⟨.MoveZangle, .OCT, 10⟩,
    ⟨.Scan, .OCT, 0⟩,
    ⟨.Scan, .OCE, 0⟩,
    -- octa
    ⟨.Scan, .OCTA, 0⟩,
    -- third 60
    ⟨.MoveZangle, .OCT, 10⟩,
    ⟨.Scan, .OCT, 0⟩,
    ⟨.Scan, .OCE, 0⟩,
    ⟨.MoveZangle, .OCT, 10⟩,
    ⟨.Scan, .OCT, 0⟩,
    ⟨.Scan, .OCE, 0⟩,
    ⟨.MoveZangle, .OCT, 10⟩,
    ⟨.Scan, .OCT, 0⟩,
    ⟨.Scan, .OCE, 0⟩,
    ⟨.MoveZangle, .OCT, 10⟩,
    ⟨.Scan, .OCT, 0⟩,
    ⟨.Scan, .OCE, 0⟩,
    ⟨.MoveZangle, .OCT, 10⟩,
    ⟨.Scan, .OCT, 0⟩,
    ⟨.Scan, .OCE, 0⟩,
    ⟨.MoveZangle, .OCT, 10⟩,
    ⟨.Scan, .OCT, 0⟩,
    ⟨.Scan, .OCE, 0⟩,
    -- final
    ⟨.Scan, .OCTA, 0⟩
  ]

/-- The values of `action_msgs::msg::GoalStatus::status`. -/
inductive GoalStatus
  | STATUS_UNKNOWN
  | STATUS_ACCEPTED
  | STATUS_EXECUTING
  | STATUS_CANCELING
  | STATUS_SUCCEEDED
  | STATUS_CANCELED
  | STATUS_ABORTED
  deriving DecidableEq

/-- The values of `rclcpp_action::ResultCode`. -/
inductive ResultCode
  | UNKNOWN
  | SUCCEEDED
  | CANCELED
  | ABORTED
  deriving DecidableEq

/-- Which callback a wall timer stored in `apply_timer_` runs. -/
inductive PulseKind
  | scan
  | apply_config
  deriving DecidableEq

/-- A wall timer held by `apply_timer_`: its callback and whether `cancel()` was called. -/
structure Timer where
  kind : PulseKind
  canceled : Bool
  deriving DecidableEq

/-- The message type `octa_ros::msg::Labviewdata` as read by `subscriberCallback`. -/
structure Labviewdata where
  robot_vel : ℚ
  robot_acc : ℚ
  z_tolerance : ℚ
  angle_tolerance : ℚ
  radius : ℚ
  angle_limit : ℚ
  num_pt : Int
  dz : ℚ
  drot : ℚ
  autofocus : Bool
  freedrive : Bool
  previous : Bool
  next : Bool
  home : Bool
  reset : Bool
  scan_trigger : Bool
  scan_3d : Bool
  z_height : ℚ
  full_scan : Bool
  robot_mode : Bool
  oct_mode : Bool
  octa_mode : Bool
  oce_mode : Bool

/-- The data members of `CoordinatorNode` that take part in control flow (lines 337-399). -/
structure State where
  active_focus_goal_handle_ : Option GoalStatus
  active_move_z_goal_handle_ : Option GoalStatus
  active_freedrive_goal_handle_ : Option GoalStatus
  active_reset_goal_handle_ : Option GoalStatus
  current_action_ : UserAction
  previous_action_ : UserAction
  cancel_action_ : Bool
  triggered_service_ : Bool
  pc_ : Nat
  yaw_ : ℚ
  angle_increment_ : ℚ
  scan_state_ : ScanState
  angle_ : ℚ
  circle_state_ : Int
  scan_trigger_ : Bool
  apply_config_ : Bool
  end_state_ : Bool
  scan_3d_ : Bool
  robot_mode_ : Bool
  oct_mode_ : Bool
  octa_mode_ : Bool
  oce_mode_ : Bool
  robot_vel_ : ℚ
  robot_acc_ : ℚ
  z_height_ : ℚ
  z_tolerance_ : ℚ
  angle_tolerance_ : ℚ
  radius_ : ℚ
  angle_limit_ : ℚ
  dz_ : ℚ
  drot_ : ℚ
  autofocus_ : Bool
  freedrive_ : Bool
  previous_ : Bool
  next_ : Bool
  home_ : Bool
  reset_ : Bool
  scan_trigger_read_ : Bool
  scan_trigger_store_ : Bool
  scan_3d_read_ : Bool
  full_scan_ : Bool
  full_scan_read_ : Bool
  num_pt_ : Int
  robot_mode_read_ : Bool
  oct_mode_read_ : Bool
  octa_mode_read_ : Bool
  oce_mode_read_ : Bool
  apply_timer_ : Option Timer

/-- The member initialisers of `CoordinatorNode` (lines 337-399). -/
def State.init : State where
  active_focus_goal_handle_ := none
  active_move_z_goal_handle_ := none
  active_freedrive_goal_handle_ := none
  active_reset_goal_handle_ := none
  current_action_ := .None
  previous_action_ := .None
  cancel_action_ := false
  triggered_service_ := false
  pc_ := 0
  yaw_ := 0
  angle_increment_ := 0
  scan_state_ := .IDLE
  angle_ := 0
  circle_state_ := 1
  scan_trigger_ := false
  apply_config_ := false
  end_state_ := false
  scan_3d_ := false
  robot_mode_ := true
  oct_mode_ := false
  octa_mode_ := false
  oce_mode_ := false
  robot_vel_ := 1 / 2
  robot_acc_ := 1 / 2
  z_height_ := 0
  z_tolerance_ := 0
  angle_tolerance_ := 0
  radius_ := 0
  angle_limit_ := 0
  dz_ := 0
  drot_ := 0
  autofocus_ := false
  freedrive_ := false
  previous_ := false
  next_ := false
  home_ := false
  reset_ := false
  scan_trigger_read_ := false
  scan_trigger_store_ := false
  scan_3d_read_ := false
  full_scan_ := false
  full_scan_read_ := false
  num_pt_ := 1
  robot_mode_read_ := true
  oct_mode_read_ := false
  octa_mode_read_ := false
  oce_mode_read_ := false
  apply_timer_ := none

/-- A request handed to one of the four action clients by the node. -/
inductive Effect
  | sendFocusGoal (angle_tolerance z_tolerance z_height : ℚ)
  | sendMoveZAngleGoal (target_angle radius angle : ℚ)
  | sendFreedriveGoal (enable : Bool)
  | sendResetGoal
  | cancelFocusGoal
  | cancelMoveZGoal
  | cancelFreedriveGoal
  | cancelResetGoal
  deriving DecidableEq

/-- Whether the effect is an `async_send_goal` (as opposed to an `async_cancel_goal`). -/
def Effect.isGoal : Effect → Bool
  | .sendFocusGoal _ _ _ => true
  | .sendMoveZAngleGoal _ _ _ => true
  | .sendFreedriveGoal _ => true
  | .sendResetGoal => true
  | _ => false

/-- Whether the effect is an `async_cancel_goal`. -/
def Effect.isCancel : Effect → Bool
  | .cancelFocusGoal => true
  | .cancelMoveZGoal => true
  | .cancelFreedriveGoal => true
  | .cancelResetGoal => true
  | _ => false

/-- The template `goal_still_active` (lines 401-408). -/
def goal_still_active (handle : Option GoalStatus) : Bool :=
  match handle with
  | none => false
  | some status => status == .STATUS_ACCEPTED || status == .STATUS_EXECUTING

/-- The method `trigger_scan` (lines 410-425): raise the scan trigger, mark the gate busy and
replace the timer in `apply_timer_` by a fresh 20 ms scan timer. -/
def trigger_scan (s : State) : State :=
  { s with
    scan_trigger_ := true
    scan_state_ := .BUSY
    apply_timer_ := some ⟨.scan, false⟩ }

/-- The method `trigger_apply_config` (lines 427-440). -/
def trigger_apply_config (s : State) : State :=
  { s with
    apply_config_ := true
    apply_timer_ := some ⟨.apply_config, false⟩ }

/-- The callback of the timer held in `apply_timer_` (the lambdas at lines 418-423 and
434-438); `none` when there is no timer or it has been canceled, so nothing fires. -/
def apply_timer_callback (s : State) : Option State :=
  match s.apply_timer_ with
  | some ⟨.scan, false⟩ =>
      some { s with
        apply_timer_ := some ⟨.scan, true⟩
        scan_trigger_ := false
        scan_state_ := .BUSY }
  | some ⟨.apply_config, false⟩ =>
      some { s with
        apply_timer_ := some ⟨.apply_config, true⟩
        apply_config_ := false }
  | _ => none

/-- The method `subscriberCallback` (lines 442-490). -/
def subscriberCallback (msg : Labviewdata) (s : State) : State :=
  { s with
    robot_vel_ := msg.robot_vel
    robot_acc_ := msg.robot_acc
    z_tolerance_ := msg.z_tolerance
    angle_tolerance_ := msg.angle_tolerance
    radius_ := msg.radius
    angle_limit_ := msg.angle_limit
    num_pt_ := msg.num_pt
    dz_ := msg.dz
    drot_ := msg.drot
    autofocus_ := msg.autofocus
    freedrive_ := msg.freedrive
    previous_ := msg.previous
    next_ := msg.next
    home_ := msg.home
    reset_ := msg.reset
    scan_trigger_read_ := msg.scan_trigger
    scan_3d_read_ := msg.scan_3d
    z_height_ := msg.z_height
    full_scan_read_ := msg.full_scan
    robot_mode_read_ := msg.robot_mode
    oct_mode_read_ := msg.oct_mode
    octa_mode_read_ := msg.octa_mode
    oce_mode_read_ := msg.oce_mode }

/-- The method `cancelCallback` (lines 492-498). -/
def cancelCallback (data : Bool) (s : State) : State :=
  if data then { s with cancel_action_ := true, autofocus_ := false }
  else { s with cancel_action_ := false }

/-- The cancel branch of `mainLoop` (lines 544-579), taken when `cancel_action_` is set. -/
def cancelBranch (s : State) : State × List Effect :=
  ({ s with
      full_scan_ := if s.full_scan_read_ then false else s.full_scan_
      pc_ := 0
      current_action_ := .None
      previous_action_ := .None
      cancel_action_ := false },
   (if goal_still_active s.active_focus_goal_handle_ then [Effect.cancelFocusGoal] else [])
    ++ (if goal_still_active s.active_move_z_goal_handle_ then [Effect.cancelMoveZGoal] else [])
    ++ (if goal_still_active s.active_freedrive_goal_handle_ then [Effect.cancelFreedriveGoal]
        else [])
    ++ (if goal_still_active s.active_reset_goal_handle_ then [Effect.cancelResetGoal] else []))

/-- How the first half of `mainLoop` (lines 581-648) leaves the function. -/
inductive Selected
  /-- The early `return` after "Full Scan complete!" (line 592). -/
  | returned (s : State)
  /-- Control reaches `switch (current_action_)` (line 650) in state `s`. -/
  | resolved (s : State)
  /-- The read `full_scan_recipe[pc_]` (line 594) is past the end of the vector. -/
  | outOfBounds

/-- Lines 582-586 of `mainLoop`: raise the outward `full_scan_` flag and, when the console's
scan-trigger flag differs from the stored copy, force the scan gate to idle. -/
def syncScanGate (s : State) : State :=
  if s.scan_trigger_read_ ≠ s.scan_trigger_store_ then
    { s with
      full_scan_ := true
      scan_state_ := .IDLE
      scan_trigger_store_ := s.scan_trigger_read_ }
  else { s with full_scan_ := true }

/-- Lines 594-637 of `mainLoop`: copy a recipe step into the mode flags, `yaw_`,
`current_action_` and `autofocus_`. -/
def loadStep (step : Step) (s : State) : State :=
  { s with
    robot_mode_ := step.mode == .ROBOT
    oct_mode_ := step.mode == .OCT
    octa_mode_ := step.mode == .OCTA
    oce_mode_ := step.mode == .OCE
    yaw_ := step.arg
    current_action_ := step.action
    autofocus_ := step.action == .Focus }

/-- Lines 581-648 of `mainLoop`: the recipe player when `full_scan_read_` is set, the flag
priority chain otherwise. -/
def selectAction (s : State) : Selected :=
  if s.full_scan_read_ then
    let s2 : State := syncScanGate s
    if (s2.pc_ + 1) % 2 ^ 32 ≥ full_scan_recipe.length then
      .returned { s2 with pc_ := 0, full_scan_ := false, full_scan_read_ := false }
    else
      match full_scan_recipe[s2.pc_]? with
      | none => .outOfBounds
      | some step => .resolved (loadStep step s2)
  else if s.freedrive_ then
    .resolved { s with current_action_ := .Freedrive }
  else if s.reset_ then
    .resolved { s with current_action_ := .Reset }
  else if s.autofocus_ then
    .resolved { s with current_action_ := .Focus }
  else if s.next_ || s.previous_ || s.home_ then
    .resolved { s with current_action_ := .MoveZangle }
  else
    .resolved s

/-- The `switch (current_action_)` of `mainLoop` (lines 650-757). -/
def handleAction (s : State) : State × List Effect :=
  match s.current_action_ with
  | .Freedrive =>
      if s.freedrive_ then
        if s.previous_action_ ≠ s.current_action_ then
          ({ s with circle_state_ := 1, angle_ := 0, previous_action_ := .Freedrive },
           [.sendFreedriveGoal true])
        else (s, [])
      else
        ({ s with current_action_ := .None, previous_action_ := .None },
         [.sendFreedriveGoal false])
  | .Reset =>
      if s.previous_action_ ≠ s.current_action_ then
        ({ s with angle_ := 0, circle_state_ := 1, previous_action_ := .Reset },
         [.sendResetGoal])
      else (s, [])
  | .Focus =>
      if s.autofocus_ && !s.end_state_ then
        if s.previous_action_ ≠ s.current_action_ then
          ({ s with previous_action_ := .Focus },
           [.sendFocusGoal s.angle_tolerance_ s.z_tolerance_ s.z_height_])
        else (s, [])
      else if !s.end_state_ then
        ({ s with end_state_ := true },
         if goal_still_active s.active_focus_goal_handle_ then [.cancelFocusGoal] else [])
      else (s, [])
  | .MoveZangle =>
      if s.previous_action_ ≠ s.current_action_ then
        let angle_increment : ℚ :=
          if s.num_pt_ = 0 then 0 else s.angle_limit_ / (s.num_pt_ : ℚ)
        let yaw : ℚ :=
          if s.next_ then angle_increment
          else if s.previous_ then -angle_increment
          else if s.home_ then -s.angle_
          else s.yaw_
        ({ s with
            angle_increment_ := angle_increment
            yaw_ := yaw
            circle_state_ := if |s.angle_| < 1 / 1000000 then 1 else s.circle_state_
            current_action_ := .None
            previous_action_ := .MoveZangle },
         [.sendMoveZAngleGoal yaw s.radius_ s.angle_])
      else (s, [])
  | .Scan =>
      if s.previous_action_ ≠ s.current_action_ then
        if s.scan_state_ = .IDLE then
          ({ trigger_scan s with
              scan_trigger_store_ := s.scan_trigger_read_
              current_action_ := .None
              previous_action_ := .Scan }, [])
        else (s, [])
      else if s.scan_state_ = .IDLE then
        ({ s with previous_action_ := .None, pc_ := (s.pc_ + 1) % 2 ^ 32 }, [])
      else (s, [])
  | .None =>
      ({ s with
          scan_state_ := .IDLE
          robot_mode_ := s.robot_mode_read_
          oct_mode_ := s.oct_mode_read_
          octa_mode_ := s.octa_mode_read_
          oce_mode_ := s.oce_mode_read_
          scan_3d_ := false
          triggered_service_ := false
          end_state_ := if s.end_state_ && !s.autofocus_ then false else s.end_state_ }, [])

/-- The method `mainLoop` (lines 541-758): one arbiter tick. The result is `none` exactly when
the tick would index `full_scan_recipe` out of bounds. -/
def mainLoop (s : State) : Option (State × List Effect) :=
  if s.cancel_action_ then some (cancelBranch s)
  else
    match selectAction s with
    | .returned s1 => some (s1, [])
    | .resolved s1 => some (handleAction s1)
    | .outOfBounds => none

/-- The `result_callback` of `sendFocusGoal` (lines 775-800). -/
def focus_result_callback (code : ResultCode) (s : State) : State :=
  { s with
    current_action_ := .None
    previous_action_ := .None
    end_state_ := true
    pc_ :=
      match code with
      | .SUCCEEDED => if s.full_scan_read_ then (s.pc_ + 1) % 2 ^ 32 else s.pc_
      | _ => s.pc_
    active_focus_goal_handle_ := none }

/-- The `result_callback` of `sendMoveZAngleGoal(yaw)` (lines 834-863); `yaw` is the value
captured when the goal was sent. -/
def move_z_result_callback (yaw : ℚ) (code : ResultCode) (s : State) : State :=
  match code with
  | .SUCCEEDED =>
      { s with
        current_action_ := .None
        previous_action_ := .None
        circle_state_ := if yaw > 0 then s.circle_state_ + 1 else s.circle_state_ - 1
        angle_ := s.angle_ + yaw
        pc_ := if s.full_scan_read_ then (s.pc_ + 1) % 2 ^ 32 else s.pc_
        active_move_z_goal_handle_ := none }
  | _ =>
      { s with
        current_action_ := .None
        previous_action_ := .None
        active_move_z_goal_handle_ := none }

/-- The `result_callback` of `sendFreedriveGoal` (lines 895-913). -/
def freedrive_result_callback (_code : ResultCode) (s : State) : State :=
  { s with active_freedrive_goal_handle_ := none }

/-- The `result_callback` of `sendResetGoal` (lines 944-971). -/
def reset_result_callback (_code : ResultCode) (s : State) : State :=
  { trigger_apply_config { s with current_action_ := .None, previous_action_ := .None } with
    active_reset_goal_handle_ := none }

/-- The `goal_response_callback` of `sendFocusGoal` (lines 802-812). -/
def focus_goal_response_callback (goal_handle : Option GoalStatus) (s : State) : State :=
  { s with active_focus_goal_handle_ := goal_handle }

/-- The `goal_response_callback` of `sendMoveZAngleGoal` (lines 865-876). -/
def move_z_goal_response_callback (goal_handle : Option GoalStatus) (s : State) : State :=
  { s with active_move_z_goal_handle_ := goal_handle }

/-- The `goal_response_callback` of `sendFreedriveGoal` (lines 915-925). -/
def freedrive_goal_response_callback (goal_handle : Option GoalStatus) (s : State) : State :=
  { s with active_freedrive_goal_handle_ := goal_handle }

/-- The `goal_response_callback` of `sendResetGoal` (lines 973-983). -/
def reset_goal_response_callback (goal_handle : Option GoalStatus) (s : State) : State :=
  { s with active_reset_goal_handle_ := goal_handle }

/-- The service handler `scan3dCallback` (lines 988-1013); the Boolean is
`response->success`. -/
def scan3dCallback (activate : Bool) (s : State) : State × Bool :=
  let s1 : State :=
    if !s.triggered_service_ then { s with scan_3d_ := activate, triggered_service_ := true }
    else s
  if activate then
    if s1.scan_3d_read_ then ({ trigger_apply_config s1 with triggered_service_ := false }, true)
    else (s1, false)
  else
    if !s1.scan_3d_read_ then ({ trigger_apply_config s1 with triggered_service_ := false }, true)
    else (s1, false)

/-- The service handler `deactivateFocusCallback` (lines 1015-1031); the Boolean is
`response->success`. -/
def deactivateFocusCallback (s : State) : State × Bool :=
  let s1 : State :=
    if !s.triggered_service_ then
      trigger_apply_config { s with end_state_ := true, triggered_service_ := true }
    else s
  if !s1.autofocus_ then ({ s1 with end_state_ := false, triggered_service_ := false }, true)
  else (s1, false)

/-! ## The node together with its action servers

`Sys` pairs the node state with the goals that were sent and whose result callback has not
run yet, so that a result callback can only be delivered for a goal that was actually sent,
and with the log of every request made so far. -/

/-- The node, its outstanding goals and the requests made so far (newest first). For
MoveZangle goals the list holds the `yaw` each result callback captured. -/
structure Sys where
  node : State
  focus_goals : Nat
  move_z_goals : List ℚ
  freedrive_goals : Nat
  reset_goals : Nat
  sent : List Effect

/-- The system right after `init()`: initial members, nothing sent. -/
def Sys.init : Sys := ⟨State.init, 0, [], 0, 0, []⟩

/-- Book-keeping of one effect: it is logged, and a sent goal becomes outstanding. -/
def Sys.record (sys : Sys) (e : Effect) : Sys :=
  match e with
  | .sendFocusGoal _ _ _ =>
      { sys with focus_goals := sys.focus_goals + 1, sent := e :: sys.sent }
  | .sendMoveZAngleGoal yaw _ _ =>
      { sys with move_z_goals := yaw :: sys.move_z_goals, sent := e :: sys.sent }
  | .sendFreedriveGoal _ =>
      { sys with freedrive_goals := sys.freedrive_goals + 1, sent := e :: sys.sent }
  | .sendResetGoal =>
      { sys with reset_goals := sys.reset_goals + 1, sent := e :: sys.sent }
  | _ => { sys with sent := e :: sys.sent }

/-- The callbacks the executor can run on the node. A goal-response event installs the
handle it is given; since a handle is modelled by its current status, the same event also
stands for the action client updating the status of an installed handle. -/
inductive Event
  | tick
  | subscriber (msg : Labviewdata)
  | cancel (data : Bool)
  | focusResult (code : ResultCode)
  | moveZResult (yaw : ℚ) (code : ResultCode)
  | freedriveResult (code : ResultCode)
  | resetResult (code : ResultCode)
  | focusGoalResponse (goal_handle : Option GoalStatus)
  | moveZGoalResponse (goal_handle : Option GoalStatus)
  | freedriveGoalResponse (goal_handle : Option GoalStatus)
  | resetGoalResponse (goal_handle : Option GoalStatus)
  | applyTimer
  | scan3d (activate : Bool)
  | deactivateFocus

/-- One callback run; `none` when the callback cannot run in this state (no outstanding goal
for a result, no armed timer) or when the tick reads the recipe out of bounds. -/
def Sys.step (sys : Sys) : Event → Option Sys
  | .tick =>
      match mainLoop sys.node with
      | none => none
      | some (s, out) => some (out.foldl Sys.record { sys with node := s })
  | .subscriber msg => some { sys with node := subscriberCallback msg sys.node }
  | .cancel data => some { sys with node := cancelCallback data sys.node }
  | .focusResult code =>
      if 0 < sys.focus_goals then
        some { sys with
          node := focus_result_callback code sys.node
          focus_goals := sys.focus_goals - 1 }
      else none
  | .moveZResult yaw code =>
      if yaw ∈ sys.move_z_goals then
        some { sys with
          node := move_z_result_callback yaw code sys.node
          move_z_goals := sys.move_z_goals.erase yaw }
      else none
  | .freedriveResult code =>
      if 0 < sys.freedrive_goals then
        some { sys with
          node := freedrive_result_callback code sys.node
          freedrive_goals := sys.freedrive_goals - 1 }
      else none
  | .resetResult code =>
      if 0 < sys.reset_goals then
        some { sys with
          node := reset_result_callback code sys.node
          reset_goals := sys.reset_goals - 1 }
      else none
  | .focusGoalResponse h =>
      some { sys with node := focus_goal_response_callback h sys.node }
  | .moveZGoalResponse h =>
      some { sys with node := move_z_goal_response_callback h sys.node }
  | .freedriveGoalResponse h =>
      some { sys with node := freedrive_goal_response_callback h sys.node }
  | .resetGoalResponse h =>
      some { sys with node := reset_goal_response_callback h sys.node }
  | .applyTimer =>
      match apply_timer_callback sys.node with
      | none => none
      | some s => some { sys with node := s }
  | .scan3d activate => some { sys with node := (scan3dCallback activate sys.node).1 }
  | .deactivateFocus => some { sys with node := (deactivateFocusCallback sys.node).1 }

/-- Run a sequence of callbacks, failing as soon as one of them cannot run. -/
def Sys.run (sys : Sys) : List Event → Option Sys
  | [] => some sys
  | e :: es =>
      match sys.step e with
      | none => none
      | some sys1 => Sys.run sys1 es

/-- A console message with every flag cleared and the default numeric settings. -/
def idleMsg : Labviewdata where
  robot_vel := 1 / 2
  robot_acc := 1 / 2
  z_tolerance := 0
  angle_tolerance := 0
  radius := 0
  angle_limit := 0
  num_pt := 1
  dz := 0
  drot := 0
  autofocus := false
  freedrive := false
  previous := false
  next := false
  home := false
  reset := false
  scan_trigger := false
  scan_3d := false
  z_height := 0
  full_scan := false
  robot_mode := true
  oct_mode := false
  octa_mode := false
  oce_mode := false

/-! ## Derived notions used in the statements -/

/-- The action the flag priority chain (lines 639-647) leaves in `current_action_`. -/
def manualAction (s : State) : UserAction :=
  if s.freedrive_ then .Freedrive
  else if s.reset_ then .Reset
  else if s.autofocus_ then .Focus
  else if s.next_ || s.previous_ || s.home_ then .MoveZangle
  else s.current_action_

/-- The value of `current_action_` at `switch (current_action_)` in a tick started in `s`;
`none` when the tick returns before the switch. -/
def resolvedAction (s : State) : Option UserAction :=
  if s.cancel_action_ then none
  else
    match selectAction s with
    | .resolved s1 => some s1.current_action_
    | _ => none

/-- No command flag of the console is asserted. -/
def noFlag (s : State) : Bool :=
  !(s.freedrive_ || s.reset_ || s.autofocus_ || s.next_ || s.previous_ || s.home_)

/-- A sufficient condition, read off the `switch` of `mainLoop`, for the switch to send no
goal: the dispatching branch of the current action is not taken. -/
def quiet (s : State) : Prop :=
  match s.current_action_ with
  | .Freedrive => s.freedrive_ = true ∧ s.previous_action_ = .Freedrive
  | .Reset => s.previous_action_ = .Reset
  | .Focus => s.autofocus_ = false ∨ s.end_state_ = true ∨ s.previous_action_ = .Focus
  | .MoveZangle => s.previous_action_ = .MoveZangle
  | .Scan => True
  | .None => True

/-! ## Concrete runs and states used as inputs -/

/-- The reset flag is raised and held: a tick, the Reset result, another tick. -/
def resetHeld : List Event :=
  [.subscriber { idleMsg with reset := true }, .tick, .resetResult .SUCCEEDED, .tick]

/-- The autofocus flag is raised and held: a tick, the Focus result, another tick. -/
def autofocusHeld : List Event :=
  [.subscriber { idleMsg with autofocus := true }, .tick, .focusResult .SUCCEEDED, .tick]

/-- The reset flag is raised, a tick dispatches Reset, and the flag is released before the
result arrives. -/
def resetReleased : List Event :=
  [.subscriber { idleMsg with reset := true }, .tick, .subscriber idleMsg]

/-- A manual Focus goal whose success is delivered after the console switched the full scan
on: autofocus raised, tick (goal sent), full scan raised, Focus result. -/
def focusDuringScan : List Event :=
  [.subscriber { idleMsg with autofocus := true },
   .tick,
   .subscriber { idleMsg with autofocus := true, full_scan := true },
   .focusResult .SUCCEEDED]

/-- The run `focusDuringScan` followed by the console releasing every flag and an idle tick
(which clears `end_state_`), so that it can be repeated. -/
def focusRound : List Event :=
  focusDuringScan ++ [.subscriber idleMsg, .tick]

/-- The round `focusRound` repeated `n` times. -/
def focusRounds : Nat → List Event
  | 0 => []
  | n + 1 => focusRound ++ focusRounds n

/-- Freedrive and reset are both asserted in the initial state. -/
def freedriveAndReset : State :=
  { State.init with freedrive_ := true, reset_ := true }

/-- The reset flag alone is asserted in the initial state. -/
def resetRequested : State :=
  { State.init with reset_ := true }

/-- A cancel request while a Focus goal is executing and a MoveZangle goal has finished. -/
def cancelPending : State :=
  { State.init with
    cancel_action_ := true
    pc_ := 7
    current_action_ := .Focus
    previous_action_ := .Focus
    active_focus_goal_handle_ := some .STATUS_EXECUTING
    active_move_z_goal_handle_ := some .STATUS_SUCCEEDED }

/-- The recipe is active with the cursor on the last entry of the program. -/
def atLastStep : State :=
  { State.init with full_scan_read_ := true, pc_ := 58 }

/-- The recipe is active with the cursor on the first MoveZangle step while the console's
"next" flag is asserted (default `angle_limit_ = 0`, `num_pt_ = 1`). -/
def nextDuringRecipe : State :=
  { State.init with full_scan_read_ := true, pc_ := 2, next_ := true }

/-- Freedrive is on (current and previous action Freedrive); the console has cleared the
freedrive flag and asserted reset. -/
def freedriveThenReset : State :=
  { State.init with
    current_action_ := .Freedrive
    previous_action_ := .Freedrive
    reset_ := true }

/-! ## The action servers

Sources: `src/src/move_z_angle_node.cpp` (class `MoveZAngleActionServer`) and
`src/src/focus_node.cpp` (class `FocusActionServer`).

A server-side goal handle (`rclcpp_action::ServerGoalHandle`) is represented by its current
`GoalStatus`. The execution task of the Focus server talks to the rest of the system only
through calls whose answers it cannot compute (goal status, the scan service, the clock,
the camera, the reconstruction, the planner, the trajectory executor); these are oracles
indexed by a query counter that advances by one at every such call. Poses, quaternions,
feedback messages and log output are left out. -/

/-- The values of `rclcpp_action::GoalResponse`. -/
inductive GoalResponse
  | REJECT
  | ACCEPT_AND_EXECUTE
  | ACCEPT_AND_DEFER
  deriving DecidableEq

/-- The library method `ServerGoalHandle::is_active()`: the goal is accepted, executing or
canceling. -/
def is_active (status : GoalStatus) : Bool :=
  status == .STATUS_ACCEPTED || status == .STATUS_EXECUTING || status == .STATUS_CANCELING

/-- The library method `ServerGoalHandle::is_canceling()`. -/
def is_canceling (status : GoalStatus) : Bool :=
  status == .STATUS_CANCELING

/-- The fields of `planning_interface::MotionPlanResponse` that `choose_shortest` reads:
`operator bool` (the error code is SUCCESS) and the path length of the trajectory;
`planner_id` stands for the rest of the response. -/
structure MotionPlanResponse where
  success : Bool
  path_length : ℚ
  planner_id : Nat
  deriving DecidableEq

/-- The library algorithm `std::min_element(first, last, comp)`: the first element that no
later element is `comp`-smaller than; `none` for an empty range, where the source
dereferences `end()`. -/
def min_element {α : Type} (comp : α → α → Bool) : List α → Option α
  | [] => none
  | x :: xs => some (xs.foldl (fun smallest y => if comp y smallest then y else smallest) x)

/-- Modelled from the spec: `to_radian` of `utils.hpp`, which is not among the sources; the
degree-to-radian "unit conversion" of the angle tolerance, as multiplication by the number
of radians per degree (π / 180 over the reals). -/
def to_radian {K : Type} [LinearOrderedField K] (rad_per_deg : K) (degrees : K) : K :=
  degrees * rad_per_deg

/-- The goal message `octa_ros::action::MoveZAngle::Goal`. -/
structure MoveZAngleGoal where
  target_angle : ℚ
  radius : ℚ
  angle : ℚ

/-- The data members of `MoveZAngleActionServer` that `handle_goal` touches (lines 61-69). -/
structure MoveZAngleActionServer where
  active_goal_handle_ : Option GoalStatus
  radius_ : ℚ
  angle_ : ℚ

namespace MoveZAngleActionServer

/-- The method `MoveZAngleActionServer::handle_goal` (lines 71-83). -/
def handle_goal (goal : MoveZAngleGoal) (srv : MoveZAngleActionServer) :
    GoalResponse × MoveZAngleActionServer :=
  if (match srv.active_goal_handle_ with
      | none => false
      | some status => is_active status) then
    (.REJECT, srv)
  else
    (.ACCEPT_AND_EXECUTE, { srv with radius_ := goal.radius, angle_ := goal.angle })

/-- The lambda `choose_shortest` of `MoveZAngleActionServer::execute` (lines 215-225). -/
def choose_shortest (sols : List MotionPlanResponse) : Option MotionPlanResponse :=
  min_element
    (fun a b =>
      if a.success && b.success then decide (a.path_length < b.path_length)
      else a.success)
    sols

end MoveZAngleActionServer

/-- The goal message `octa_ros::action::Focus::Goal`. -/
structure FocusGoal where
  angle_tolerance : ℚ
  z_tolerance : ℚ
  z_height : ℚ

/-- What one capture-and-reconstruct pass hands to the controller: the roll, pitch and yaw
read from the aligned bounding-box rotation (`getRPY`, line 451) and the height `center[2]`
of the box centre. -/
structure Measurement where
  tmp_roll : ℚ
  tmp_pitch : ℚ
  tmp_yaw : ℚ
  center_z : ℚ

/-- The data members of `FocusActionServer` that take part in control flow (lines 85-139). -/
structure FocusActionServer where
  early_terminate_ : Bool
  skip_angle_tolerance_ : Bool
  dz_ : ℚ
  angle_focused_ : Bool
  z_focused_ : Bool
  planning_ : Bool
  roll_ : ℚ
  pitch_ : ℚ
  yaw_ : ℚ
  tmp_roll_ : ℚ
  tmp_pitch_ : ℚ
  tmp_yaw_ : ℚ
  angle_tolerance_ : ℚ
  z_tolerance_ : ℚ
  z_height_ : ℚ

/-- How a run of `FocusActionServer::execute` ends: with one of the three terminal reports
(`succeed`, `canceled`, `abort`), by returning without a report, or not at all: `blocked`
stands for the task waiting for good in `get_img` (line 229), whose wait on the condition
variable has no timeout, for a frame that does not arrive. -/
inductive FocusOutcome
  | succeeded
  | canceled
  | aborted
  | returned
  | blocked
  deriving DecidableEq

/-- The answers the execution task gets from outside, as functions of the query counter,
and the radians-per-degree factor of `to_radian`. -/
structure FocusEnv where
  status : Nat → GoalStatus
  call_scan3d : Nat → Bool → Bool
  timed_out : Nat → Bool
  frame_arrives : Nat → Bool
  measure : Nat → Measurement
  plan : Nat → Bool
  execute : Nat → Bool
  rad_per_deg : ℚ

/-- A finished run of `execute`: the outcome, the members it leaves behind and the query
counter after its last query. -/
structure FocusRun where
  outcome : FocusOutcome
  server : FocusActionServer
  clock : Nat

/-- Control flow of a part of `execute`: the function returned, or control goes on. -/
inductive Flow
  | exit (run : FocusRun)
  | cont (srv : FocusActionServer) (clock : Nat)

namespace FocusActionServer

/-- The member initialisers of `FocusActionServer` (lines 85-139). -/
def init : FocusActionServer where
  early_terminate_ := false
  skip_angle_tolerance_ := true
  dz_ := 0
  angle_focused_ := false
  z_focused_ := false
  planning_ := false
  roll_ := 0
  pitch_ := 0
  yaw_ := 0
  tmp_roll_ := 0
  tmp_pitch_ := 0
  tmp_yaw_ := 0
  angle_tolerance_ := 0
  z_tolerance_ := 0
  z_height_ := 0

/-- The constant member `px_per_mm` (line 135). -/
def px_per_mm : ℚ := 55

/-- The constant member `interval_` (line 133). -/
def interval_ : Nat := 6

/-- The method `FocusActionServer::handle_goal` (lines 143-154). -/
def handle_goal (goal : FocusGoal) (srv : FocusActionServer) :
    GoalResponse × FocusActionServer :=
  (.ACCEPT_AND_EXECUTE,
   { srv with
     angle_tolerance_ := goal.angle_tolerance
     z_tolerance_ := goal.z_tolerance
     z_height_ := goal.z_height })

/-- The method `FocusActionServer::tol_measure` (lines 306-310). -/
def tol_measure {K : Type} [LinearOrderedField K] (rad_per_deg : K)
    (roll pitch angle_tolerance : K) : Bool :=
  decide (|roll| < to_radian rad_per_deg angle_tolerance) &&
    decide (|pitch| < to_radian rad_per_deg angle_tolerance)

/-- The lambda `choose_shortest` of `FocusActionServer::execute` (lines 534-547). -/
def choose_shortest (sols : List MotionPlanResponse) : Option MotionPlanResponse :=
  min_element
    (fun a b =>
      if a.success && b.success then decide (a.path_length < b.path_length)
      else a.success)
    sols

/-- The recurring pair of checks of `execute` (e.g. lines 324-336): return silently when the
goal is no longer active, report Canceled when it is canceling. -/
def checkpoint (env : FocusEnv) (srv : FocusActionServer) (t : Nat) : Flow :=
  if !is_active (env.status t) then .exit ⟨.returned, srv, t + 1⟩
  else if is_canceling (env.status (t + 1)) then .exit ⟨.canceled, srv, t + 2⟩
  else .cont srv (t + 2)

/-- The loops `while (!call_scan3d(activate))` (lines 340-362 and 399-421): checkpoint, then
abort on the 5 s timeout, then retry. -/
def scanLoop (env : FocusEnv) (activate : Bool) :
    Nat → FocusActionServer → Nat → Option Flow
  | 0, _, _ => none
  | fuel + 1, srv, t =>
      if env.call_scan3d t activate then some (.cont srv (t + 1))
      else
        match checkpoint env srv (t + 1) with
        | .exit run => some (.exit run)
        | .cont srv1 t1 =>
            if env.timed_out t1 then some (.exit ⟨.aborted, srv1, t1 + 1⟩)
            else scanLoop env activate fuel srv1 (t1 + 1)

/-- The loop `while (true)` that waits for one frame (lines 366-392). `get_img`
(lines 227-232) waits, without a timeout, until `imageCallback` has stored a frame newer than
the last one read; `frame_arrives t` says whether that wait ends. When it ends, `img_` is
the 512 x 500 matrix stored at lines 246-250, which is never empty, so the test of line 368
succeeds and the loop is left; the checks of lines 372-391 come after that test and are
never reached. When it does not end, the task stays in `get_img`. -/
def acquireImage (env : FocusEnv) (srv : FocusActionServer) (t : Nat) : Flow :=
  if env.frame_arrives t then .cont srv (t + 1)
  else .exit ⟨.blocked, srv, t + 1⟩

/-- The loop `for (int i = 0; i < interval_; i++)` (lines 364-395), `n` frames to go. -/
def acquireImages (env : FocusEnv) : Nat → FocusActionServer → Nat → Flow
  | 0, srv, t => .cont srv t
  | n + 1, srv, t =>
      match acquireImage env srv t with
      | .exit run => .exit run
      | .cont srv1 t1 => acquireImages env n srv1 t1

/-- Lines 451-457: the axis remap of the measured rotation and the height error. -/
def takeMeasurement (m : Measurement) (srv : FocusActionServer) : FocusActionServer :=
  { srv with
    tmp_roll_ := m.tmp_roll
    tmp_pitch_ := m.tmp_pitch
    tmp_yaw_ := m.tmp_yaw
    roll_ := -m.tmp_pitch
    pitch_ := m.tmp_roll
    yaw_ := m.tmp_yaw
    dz_ := (srv.z_height_ - m.center_z) / (px_per_mm * 1000) }

/-- Lines 470-484: the angle tolerance check with the `skip_angle_tolerance_` policy. -/
def checkAngle (rad_per_deg : ℚ) (srv : FocusActionServer) : FocusActionServer :=
  if tol_measure rad_per_deg srv.roll_ srv.pitch_ srv.angle_tolerance_ then
    { srv with angle_focused_ := true }
  else
    let srv1 : FocusActionServer :=
      if !srv.skip_angle_tolerance_ then { srv with angle_focused_ := false } else srv
    if srv1.skip_angle_tolerance_ && srv1.planning_ then
      { srv1 with angle_focused_ := true, planning_ := false }
    else srv1

/-- Lines 485-493: the height tolerance check. -/
def checkHeight (srv : FocusActionServer) : FocusActionServer :=
  if |srv.dz_| < srv.z_tolerance_ / 1000 then { srv with z_focused_ := true }
  else { srv with z_focused_ := false }

/-- Lines 495-510: whether a correction is to be planned. -/
def requestPlanning (srv : FocusActionServer) : FocusActionServer :=
  let srv1 : FocusActionServer :=
    if srv.angle_focused_ && !srv.z_focused_ then { srv with planning_ := true } else srv
  if !srv1.angle_focused_ then { srv1 with planning_ := true } else srv1

/-- Lines 512-583: plan, checkpoint, execute. The `break` under `early_terminate_` leaves
the loop with both flags set, which is what going on to the loop test does. -/
def planAndExecute (env : FocusEnv) (srv : FocusActionServer) (t : Nat) : Flow :=
  if srv.planning_ then
    let srv1 : FocusActionServer :=
      if !srv.skip_angle_tolerance_ then { srv with planning_ := false } else srv
    if env.plan t then
      match checkpoint env srv1 (t + 1) with
      | .exit run => .exit run
      | .cont srv2 t2 =>
          if env.execute t2 then
            if srv2.early_terminate_ then
              .cont { srv2 with angle_focused_ := true, z_focused_ := true } (t2 + 1)
            else .cont srv2 (t2 + 1)
          else .cont srv2 (t2 + 1)
    else .cont srv1 (t + 1)
  else .cont srv t

/-- One pass through the body of `while (!angle_focused_ || !z_focused_)`
(lines 324-583). -/
def iteration (env : FocusEnv) (fuel : Nat) (srv : FocusActionServer) (t : Nat) :
    Option Flow :=
  match checkpoint env srv t with
  | .exit run => some (.exit run)
  | .cont srv0 t0 =>
      match scanLoop env true fuel srv0 t0 with
      | none => none
      | some (.exit run) => some (.exit run)
      | some (.cont srv1 t1) =>
          match acquireImages env interval_ srv1 t1 with
          | .exit run => some (.exit run)
          | .cont srv2 t2 =>
              match scanLoop env false fuel srv2 t2 with
              | none => none
              | some (.exit run) => some (.exit run)
              | some (.cont srv3 t3) =>
                  some (planAndExecute env
                    (requestPlanning (checkHeight (checkAngle env.rad_per_deg
                      (takeMeasurement (env.measure t3) srv3))))
                    (t3 + 1))

/-- Lines 586-609: the block after the loop. -/
def finish (env : FocusEnv) (srv : FocusActionServer) (t : Nat) : FocusRun :=
  if !is_active (env.status t) then ⟨.returned, srv, t + 1⟩
  else if is_canceling (env.status (t + 1)) then ⟨.canceled, srv, t + 2⟩
  else if is_active (env.status (t + 2)) then ⟨.succeeded, srv, t + 3⟩
  else ⟨.returned, srv, t + 3⟩

/-- The loop `while (!angle_focused_ || !z_focused_)` followed by the final block. -/
def whileLoop (env : FocusEnv) : Nat → FocusActionServer → Nat → Option FocusRun
  | 0, _, _ => none
  | fuel + 1, srv, t =>
      if !srv.angle_focused_ || !srv.z_focused_ then
        match iteration env fuel srv t with
        | none => none
        | some (.exit run) => some run
        | some (.cont srv1 t1) => whileLoop env fuel srv1 t1
      else some (finish env srv t)

/-- The method `FocusActionServer::execute` (lines 312-610), started at query counter `t`;
`none` when `fuel` loop iterations do not suffice. -/
def execute (env : FocusEnv) (fuel : Nat) (srv : FocusActionServer) (t : Nat) :
    Option FocusRun :=
  if !is_active (env.status t) then some ⟨.returned, srv, t + 1⟩
  else whileLoop env fuel { srv with angle_focused_ := false, z_focused_ := false } (t + 1)

end FocusActionServer

/-! ## Further derived notions and concrete inputs -/

/-- The value assigned to `angle_increment_` at lines 703-706. -/
def angleIncrement (s : State) : ℚ :=
  if s.num_pt_ = 0 then 0 else s.angle_limit_ / (s.num_pt_ : ℚ)

/-- The value of `yaw_` after lines 707-716, which is the one passed to
`sendMoveZAngleGoal`. -/
def dispatchYaw (s : State) : ℚ :=
  if s.next_ then angleIncrement s
  else if s.previous_ then -angleIncrement s
  else if s.home_ then -s.angle_
  else s.yaw_

/-- A console message with `angle_limit = 30` and `num_pt = 3` (a 10 degree increment) and
every flag cleared. -/
def jogMsg : Labviewdata :=
  { idleMsg with angle_limit := 30, num_pt := 3 }

/-- Starting from the initial state (angle 0, lap counter 1): "next" pressed and released
twice, then "home", each move succeeding before the next command. -/
def nextNextHome : List Event :=
  [.subscriber { jogMsg with next := true }, .tick, .moveZResult 10 .SUCCEEDED,
   .subscriber jogMsg, .tick,
   .subscriber { jogMsg with next := true }, .tick, .moveZResult 10 .SUCCEEDED,
   .subscriber jogMsg, .tick,
   .subscriber { jogMsg with home := true }, .tick, .moveZResult (-20) .SUCCEEDED]

/-- The "next" flag asserted with `angle_limit_ = 30` and `num_pt_ = 3`. -/
def nextRequested : State :=
  { State.init with next_ := true, angle_limit_ := 30, num_pt_ := 3 }

/-- The "home" flag alone asserted at accumulated angle 20 and lap counter 3. -/
def homeRequested : State :=
  { State.init with home_ := true, angle_ := 20, circle_state_ := 3 }

/-- The console's mirror `scan_3d_read_` already shows the scan gate active. -/
def mirrorActive : State :=
  { State.init with scan_3d_read_ := true }

/-- A Focus server whose goal asks for height 100 with a height tolerance of 1 (mm). -/
def heightGoal : FocusActionServer :=
  { FocusActionServer.init with z_height_ := 100, z_tolerance_ := 1 }

/-- A measurement whose bounding-box centre is at height 100.5, with no rotation. -/
def heightMeasurement : Measurement :=
  ⟨0, 0, 0, 201 / 2⟩

/-- Three planning candidates: a failed one, a successful one of length 5 and a successful
one of length 3. -/
def threeCandidates : List MotionPlanResponse :=
  [⟨false, 1, 0⟩, ⟨true, 5, 1⟩, ⟨true, 3, 2⟩]

/-- Cancellation of the goal is requested at query `T` and stays requested: the status
oracle answers Executing before `T` and Canceling from `T` on. -/
def CancelFrom (env : FocusEnv) (T : Nat) : Prop :=
  ∀ t, env.status t = if t < T then .STATUS_EXECUTING else .STATUS_CANCELING

/-- An environment in which the scan service answers at once, frames arrive, every
measurement is perfectly aligned at height 100, planning and execution succeed, and
cancellation is requested at query `T`. -/
def alignedEnv (T : Nat) : FocusEnv where
  status t := if t < T then .STATUS_EXECUTING else .STATUS_CANCELING
  call_scan3d _ _ := true
  timed_out _ := false
  frame_arrives _ := true
  measure _ := ⟨0, 0, 0, 100⟩
  plan _ := true
  execute _ := true
  rad_per_deg := 355 / 113 / 180

/-- A Focus server whose goal asks for height 100 with tolerances of 1 degree and 1 mm. -/
def alignGoal : FocusActionServer :=
  { FocusActionServer.init with angle_tolerance_ := 1, z_tolerance_ := 1, z_height_ := 100 }

/-- What the cancellation claim needs of a part of `execute` started at counter `t`: an exit
is a Canceled report, or happens at most one query after the request at `T`, or is the task
blocked in `get_img` because a frame did not arrive; and control goes on only at a counter
at least `gap` later. -/
def Flow.safe (env : FocusEnv) (T t gap : Nat) : Flow → Prop
  | .exit run =>
      (run.outcome = .blocked → ∃ q, env.frame_arrives q = false) ∧
        (run.outcome = .canceled ∨ run.clock ≤ T + 1 ∨ run.outcome = .blocked)
  | .cont _ t1 => t + gap ≤ t1

/-! ## Derived notions and concrete inputs for the scan gate, the recipe and the Focus policy -/

/-- The scan pulse has just been raised in the initial state. -/
def pulseRaised : State :=
  trigger_scan State.init

/-- The recipe is active with the cursor on the first Scan step (index 1); the scan has been
triggered (previous action Scan) and the gate is idle. -/
def scanAwaited : State :=
  { State.init with full_scan_read_ := true, pc_ := 1, previous_action_ := .Scan }

/-- The recipe plays up to its first Scan step, which raises the scan pulse; then the pulse
timer fires. -/
def scanPulse : List Event :=
  [.subscriber { idleMsg with full_scan := true }, .tick, .focusResult .SUCCEEDED, .tick,
   .applyTimer]

/-- A manual Reset is dispatched, then the recipe is started and plays up to its first Scan
step, which raises the scan pulse; the Reset result arrives before the pulse timer expires,
and then the timer held in `apply_timer_` fires. -/
def sharedTimerRun : List Event :=
  [.subscriber { idleMsg with reset := true }, .tick,
   .subscriber { idleMsg with full_scan := true }, .tick, .focusResult .SUCCEEDED, .tick,
   .resetResult .SUCCEEDED, .applyTimer]

/-- "Next" is pressed with `num_pt = 0` (increment 0); the move succeeds. -/
def zeroYawNext : List Event :=
  [.subscriber { idleMsg with next := true, num_pt := 0, angle_limit := 30 }, .tick,
   .moveZResult 0 .SUCCEEDED]

/-- "Home" is pressed in the initial state (accumulated angle 0); the move succeeds. -/
def zeroYawHome : List Event :=
  [.subscriber { idleMsg with home := true }, .tick, .moveZResult 0 .SUCCEEDED]

/-- A cancel request while the recipe is at its seventh step and the console keeps the
full-scan flag asserted; `end_state_` is false. -/
def cancelWithRecipeHeld : State :=
  { State.init with
    cancel_action_ := true
    full_scan_read_ := true
    full_scan_ := true
    pc_ := 7
    current_action_ := .Focus
    previous_action_ := .Focus
    active_focus_goal_handle_ := some .STATUS_EXECUTING }

/-- An environment like `alignedEnv` except that every measurement is rotated by one radian
about the measured pitch axis (so `roll_` is -1, far outside a tolerance of one degree)
while the height is exactly the requested 100. -/
def tiltedEnv (T : Nat) : FocusEnv where
  status t := if t < T then .STATUS_EXECUTING else .STATUS_CANCELING
  call_scan3d _ _ := true
  timed_out _ := false
  frame_arrives _ := true
  measure _ := ⟨0, 1, 0, 100⟩
  plan _ := true
  execute _ := true
  rad_per_deg := 355 / 113 / 180

/-- The right-hand side of line 457 of `focus_node.cpp`,
`(z_height_ - center[2]) / (px_per_mm * 1000.0)`, as a function of the values it reads; the
divisor `px_per_mm * 1000` is the scale factor. -/
def heightError (px_per_mm z_height center_z : ℚ) : ℚ :=
  (z_height - center_z) / (px_per_mm * 1000)

/-- The run `scanPulse` followed by a console message that keeps the recipe on and shows the
console's scan-trigger flag raised, so that it differs from the stored copy. -/
def scanAcknowledged : List Event :=
  scanPulse ++ [.subscriber { idleMsg with full_scan := true, scan_trigger := true }]

/-- An environment like `alignedEnv` in which the camera has stalled: no wait in `get_img`
ever ends. -/
def stalledEnv (T : Nat) : FocusEnv where
  status t := if t < T then .STATUS_EXECUTING else .STATUS_CANCELING
  call_scan3d _ _ := true
  timed_out _ := false
  frame_arrives _ := false
  measure _ := ⟨0, 0, 0, 100⟩
  plan _ := true
  execute _ := true
  rad_per_deg := 355 / 113 / 180

/-- The Focus server state entering a loop iteration with a correction pending
(`planning_` set) under the default policy, for the goal of `alignGoal`. -/
def planningPending : FocusActionServer :=
  { alignGoal with planning_ := true }

/-! ## Auxiliary lemmas -/

theorem recipe_length : full_scan_recipe.length = 59 := rfl

theorem goal_still_active_iff (h : Option GoalStatus) :
    goal_still_active h = true ↔ h = some .STATUS_ACCEPTED ∨ h = some .STATUS_EXECUTING := by
  rcases h with _ | st
  · simp [goal_still_active]
  · cases st <;> simp [goal_still_active]

theorem syncScanGate_pc (s : State) : (syncScanGate s).pc_ = s.pc_ := by
  unfold syncScanGate
  split_ifs <;> rfl

theorem syncScanGate_frame (s : State) :
    (syncScanGate s).previous_action_ = s.previous_action_ ∧
    (syncScanGate s).next_ = s.next_ ∧
    (syncScanGate s).num_pt_ = s.num_pt_ ∧
    (syncScanGate s).angle_limit_ = s.angle_limit_ ∧
    (syncScanGate s).radius_ = s.radius_ ∧
    (syncScanGate s).angle_ = s.angle_ := by
  unfold syncScanGate
  split_ifs <;> simp

theorem selectAction_manual (s : State) (hr : s.full_scan_read_ = false) :
    selectAction s = .resolved { s with current_action_ := manualAction s } := by
  unfold selectAction manualAction
  rw [if_neg (by simp [hr])]
  split_ifs <;> rfl

theorem mainLoop_manual (s : State)
    (hc : s.cancel_action_ = false) (hr : s.full_scan_read_ = false) :
    mainLoop s = some (handleAction { s with current_action_ := manualAction s }) := by
  simp only [mainLoop, hc, selectAction_manual s hr, Bool.false_eq_true, if_false]

theorem selectAction_recipe_done (s : State) (hr : s.full_scan_read_ = true)
    (h : full_scan_recipe.length ≤ (s.pc_ + 1) % 2 ^ 32) :
    selectAction s =
      .returned { syncScanGate s with pc_ := 0, full_scan_ := false, full_scan_read_ := false } := by
  unfold selectAction
  rw [if_pos hr]
  simp only [syncScanGate_pc]
  rw [if_pos h]

theorem selectAction_recipe_step (s : State) (hr : s.full_scan_read_ = true)
    (h : (s.pc_ + 1) % 2 ^ 32 < full_scan_recipe.length) (step : Step)
    (hstep : full_scan_recipe[s.pc_]? = some step) :
    selectAction s = .resolved (loadStep step (syncScanGate s)) := by
  unfold selectAction
  rw [if_pos hr]
  simp only [syncScanGate_pc]
  rw [if_neg (not_le.mpr h), hstep]

theorem handleAction_frame (s : State) :
    (handleAction s).1.cancel_action_ = s.cancel_action_ ∧
    (handleAction s).1.full_scan_read_ = s.full_scan_read_ ∧
    (handleAction s).1.freedrive_ = s.freedrive_ ∧
    (handleAction s).1.reset_ = s.reset_ ∧
    (handleAction s).1.autofocus_ = s.autofocus_ ∧
    (handleAction s).1.next_ = s.next_ ∧
    (handleAction s).1.previous_ = s.previous_ ∧
    (handleAction s).1.home_ = s.home_ := by
  unfold handleAction
  split <;> (try split_ifs) <;> simp [trigger_scan]

theorem handleAction_pc (s : State) :
    (handleAction s).1.pc_ = s.pc_ ∨ (handleAction s).1.pc_ = (s.pc_ + 1) % 2 ^ 32 := by
  unfold handleAction
  split <;> (try split_ifs) <;> simp [trigger_scan]

theorem manualAction_handleAction (t : State) :
    manualAction (handleAction t).1 =
      if t.freedrive_ then .Freedrive
      else if t.reset_ then .Reset
      else if t.autofocus_ then .Focus
      else if t.next_ || t.previous_ || t.home_ then .MoveZangle
      else (handleAction t).1.current_action_ := by
  obtain ⟨-, -, h3, h4, h5, h6, h7, h8⟩ := handleAction_frame t
  simp only [manualAction, h3, h4, h5, h6, h7, h8]

theorem handleAction_quiet (s : State) (h : quiet s) :
    ∀ e ∈ (handleAction s).2, e.isGoal = false := by
  unfold quiet at h
  unfold handleAction
  split at h <;> rename_i hcur <;> simp only [hcur]
  · simp [h.1, h.2]
  · simp [h]
  · rcases h with h | h | h
    · simp [h]
      split_ifs <;> simp [Effect.isGoal]
    · simp [h, Effect.isGoal]
    · simp [h]
      split_ifs <;> simp [Effect.isGoal]
  · simp [h]
  · split_ifs <;> simp
  · simp

theorem quiet_freedrive (t : State) (hfd : t.freedrive_ = true)
    (ht : t.current_action_ = .Freedrive) :
    quiet { (handleAction t).1 with current_action_ := .Freedrive } := by
  simp only [quiet, handleAction, ht, hfd, if_true]
  split_ifs <;> simp_all

theorem quiet_reset (t : State) (ht : t.current_action_ = .Reset) :
    quiet { (handleAction t).1 with current_action_ := .Reset } := by
  simp only [quiet, handleAction, ht]
  split_ifs <;> simp_all

theorem quiet_focus (t : State) (ht : t.current_action_ = .Focus) :
    quiet { (handleAction t).1 with current_action_ := .Focus } := by
  simp only [quiet, handleAction, ht]
  split_ifs <;> simp_all

theorem quiet_move_z (t : State) (ht : t.current_action_ = .MoveZangle) :
    quiet { (handleAction t).1 with current_action_ := .MoveZangle } := by
  simp only [quiet, handleAction, ht]
  split_ifs <;> simp_all

theorem quiet_no_flag (t : State) (hfd : t.freedrive_ = false) (haf : t.autofocus_ = false) :
    quiet (handleAction t).1 := by
  rcases hcur : t.current_action_ with _ | _ | _ | _ | _ | _ <;>
    simp only [handleAction, hcur, hfd, haf, Bool.false_eq_true, if_false,
      Bool.false_and] <;>
    (try split_ifs) <;> simp_all [quiet, trigger_scan]

theorem handleAction_twice_quiet (t : State) (ht : t.current_action_ = manualAction t) :
    ∀ e ∈ (handleAction { (handleAction t).1 with
              current_action_ := manualAction (handleAction t).1 }).2, e.isGoal = false := by
  apply handleAction_quiet
  rw [manualAction_handleAction]
  unfold manualAction at ht
  rcases hfd : t.freedrive_ with _ | _
  · rcases hrs : t.reset_ with _ | _
    · rcases haf : t.autofocus_ with _ | _
      · rcases hmv : (t.next_ || t.previous_ || t.home_) with _ | _
        · simp only [Bool.false_eq_true, if_false]
          exact quiet_no_flag t hfd haf
        · simp only [hfd, hrs, haf, hmv, Bool.false_eq_true, if_false, if_true] at ht ⊢
          exact quiet_move_z t ht
      · simp only [hfd, hrs, haf, Bool.false_eq_true, if_false, if_true] at ht ⊢
        exact quiet_focus t ht
    · simp only [hfd, hrs, Bool.false_eq_true, if_false, if_true] at ht ⊢
      exact quiet_reset t ht
  · simp only [hfd, if_true] at ht ⊢
    exact quiet_freedrive t hfd ht

/-! ## The claims -/

/-- C1. On a tick with no pending cancel and no active recipe, the state in which the
`switch` runs has `current_action_` equal to Freedrive if the freedrive flag is set;
otherwise Reset if the reset flag is set; otherwise Focus if the autofocus flag is set;
otherwise MoveZangle if one of next/previous/home is set; and the tick is the `switch`
applied to that state. Lower-priority flags do not occur in the result. -/
theorem C1_priority_resolution (s : State)
    (hc : s.cancel_action_ = false) (hr : s.full_scan_read_ = false) :
    (s.freedrive_ = true →
      selectAction s = .resolved { s with current_action_ := .Freedrive } ∧
      mainLoop s = some (handleAction { s with current_action_ := .Freedrive })) ∧
    (s.freedrive_ = false → s.reset_ = true →
      selectAction s = .resolved { s with current_action_ := .Reset } ∧
      mainLoop s = some (handleAction { s with current_action_ := .Reset })) ∧
    (s.freedrive_ = false → s.reset_ = false → s.autofocus_ = true →
      selectAction s = .resolved { s with current_action_ := .Focus } ∧
      mainLoop s = some (handleAction { s with current_action_ := .Focus })) ∧
    (s.freedrive_ = false → s.reset_ = false → s.autofocus_ = false →
      (s.next_ || s.previous_ || s.home_) = true →
      selectAction s = .resolved { s with current_action_ := .MoveZangle } ∧
      mainLoop s = some (handleAction { s with current_action_ := .MoveZangle })) := by
  have hsel := selectAction_manual s hr
  have hml := mainLoop_manual s hc hr
  refine ⟨?_, ?_, ?_, ?_⟩
  · intro h1
    have hm : manualAction s = .Freedrive := by simp [manualAction, h1]
    rw [hm] at hsel hml
    exact ⟨hsel, hml⟩
  · intro h1 h2
    have hm : manualAction s = .Reset := by simp [manualAction, h1, h2]
    rw [hm] at hsel hml
    exact ⟨hsel, hml⟩
  · intro h1 h2 h3
    have hm : manualAction s = .Focus := by simp [manualAction, h1, h2, h3]
    rw [hm] at hsel hml
    exact ⟨hsel, hml⟩
  · intro h1 h2 h3 h4
    have hm : manualAction s = .MoveZangle := by
      simp only [manualAction, h1, h2, h3, h4, Bool.false_eq_true, if_false, if_true]
    rw [hm] at hsel hml
    exact ⟨hsel, hml⟩

/-- Witness for C1: with freedrive and reset both asserted the tick resolves Freedrive. -/
theorem C1_priority_resolution_witness :
    selectAction freedriveAndReset
        = .resolved { freedriveAndReset with current_action_ := .Freedrive } ∧
      mainLoop freedriveAndReset
        = some (handleAction { freedriveAndReset with current_action_ := .Freedrive }) :=
  (C1_priority_resolution freedriveAndReset rfl rfl).1 rfl

/-- C2. From every state with no cancel and no active recipe, two consecutive ticks (nothing
else running in between, so the command flags are the same) both complete, and the second
one sends no goal. -/
theorem C2_second_tick_sends_no_goal (s : State)
    (hc : s.cancel_action_ = false) (hr : s.full_scan_read_ = false) :
    ∃ s1 out1 s2 out2, mainLoop s = some (s1, out1) ∧ mainLoop s1 = some (s2, out2) ∧
      ∀ e ∈ out2, e.isGoal = false := by
  have h1 := mainLoop_manual s hc hr
  have hfr := handleAction_frame { s with current_action_ := manualAction s }
  have h2 := mainLoop_manual (handleAction { s with current_action_ := manualAction s }).1
    (hfr.1.trans hc) (hfr.2.1.trans hr)
  have ht : ({ s with current_action_ := manualAction s } : State).current_action_ =
      manualAction { s with current_action_ := manualAction s } := by
    simp only [manualAction]
    split_ifs <;> rfl
  exact ⟨_, _, _, _, h1, h2, handleAction_twice_quiet _ ht⟩

/-- Witness for C2: with the reset flag asserted, the second of two ticks sends no goal. -/
theorem C2_second_tick_sends_no_goal_witness :
    ∃ s1 out1 s2 out2, mainLoop resetRequested = some (s1, out1) ∧
      mainLoop s1 = some (s2, out2) ∧ ∀ e ∈ out2, e.isGoal = false :=
  C2_second_tick_sends_no_goal resetRequested rfl rfl

/-- C3 (evaluation of the code where it departs from the claim). The reset flag is raised
once and stays asserted; after a tick, the Succeeded result of the Reset goal and a second
tick, two Reset goals have been sent during that single asserted period. In the same run
with the autofocus flag instead, only one goal is sent. -/
theorem C3_reset_goal_sent_again_after_result :
    (Sys.init.run resetHeld).map (fun x => (x.node.reset_, x.sent.count .sendResetGoal))
      = some (true, 2) ∧
    (Sys.init.run autofocusHeld).map
        (fun x => (x.node.autofocus_, (x.sent.filter Effect.isGoal).length))
      = some (true, 1) := by
  decide

/-- C4. A tick with the cancel request set requests cancellation of exactly the action kinds
whose goal handle is Accepted or Executing, emits nothing but cancel requests (no goal is
sent), sets the recipe cursor to 0, sets `current_action_` and `previous_action_` to None
and clears the cancel request. -/
theorem C4_cancel_tick (s : State) (hc : s.cancel_action_ = true) :
    ∃ s1 out, mainLoop s = some (s1, out) ∧
      (Effect.cancelFocusGoal ∈ out ↔
        (s.active_focus_goal_handle_ = some .STATUS_ACCEPTED ∨
          s.active_focus_goal_handle_ = some .STATUS_EXECUTING)) ∧
      (Effect.cancelMoveZGoal ∈ out ↔
        (s.active_move_z_goal_handle_ = some .STATUS_ACCEPTED ∨
          s.active_move_z_goal_handle_ = some .STATUS_EXECUTING)) ∧
      (Effect.cancelFreedriveGoal ∈ out ↔
        (s.active_freedrive_goal_handle_ = some .STATUS_ACCEPTED ∨
          s.active_freedrive_goal_handle_ = some .STATUS_EXECUTING)) ∧
      (Effect.cancelResetGoal ∈ out ↔
        (s.active_reset_goal_handle_ = some .STATUS_ACCEPTED ∨
          s.active_reset_goal_handle_ = some .STATUS_EXECUTING)) ∧
      (∀ e ∈ out, e.isCancel = true ∧ e.isGoal = false) ∧
      s1.pc_ = 0 ∧ s1.current_action_ = .None ∧ s1.previous_action_ = .None ∧
      s1.cancel_action_ = false := by
  refine ⟨(cancelBranch s).1, (cancelBranch s).2, by simp [mainLoop, hc], ?_, ?_, ?_, ?_, ?_,
    rfl, rfl, rfl, rfl⟩
  · rw [← goal_still_active_iff]
    unfold cancelBranch
    split_ifs <;> simp_all
  · rw [← goal_still_active_iff]
    unfold cancelBranch
    split_ifs <;> simp_all
  · rw [← goal_still_active_iff]
    unfold cancelBranch
    split_ifs <;> simp_all
  · rw [← goal_still_active_iff]
    unfold cancelBranch
    split_ifs <;> simp_all
  · unfold cancelBranch
    intro e he
    simp only [List.mem_append] at he
    rcases he with ((he | he) | he) | he <;> split_ifs at he <;>
      simp_all [Effect.isCancel, Effect.isGoal]

/-- Witness for C4: a cancel request while a Focus goal is executing. -/
theorem C4_cancel_tick_witness :
    ∃ s1 out, mainLoop cancelPending = some (s1, out) ∧
      (Effect.cancelFocusGoal ∈ out ↔
        (cancelPending.active_focus_goal_handle_ = some .STATUS_ACCEPTED ∨
          cancelPending.active_focus_goal_handle_ = some .STATUS_EXECUTING)) ∧
      (Effect.cancelMoveZGoal ∈ out ↔
        (cancelPending.active_move_z_goal_handle_ = some .STATUS_ACCEPTED ∨
          cancelPending.active_move_z_goal_handle_ = some .STATUS_EXECUTING)) ∧
      (Effect.cancelFreedriveGoal ∈ out ↔
        (cancelPending.active_freedrive_goal_handle_ = some .STATUS_ACCEPTED ∨
          cancelPending.active_freedrive_goal_handle_ = some .STATUS_EXECUTING)) ∧
      (Effect.cancelResetGoal ∈ out ↔
        (cancelPending.active_reset_goal_handle_ = some .STATUS_ACCEPTED ∨
          cancelPending.active_reset_goal_handle_ = some .STATUS_EXECUTING)) ∧
      (∀ e ∈ out, e.isCancel = true ∧ e.isGoal = false) ∧
      s1.pc_ = 0 ∧ s1.current_action_ = .None ∧ s1.previous_action_ = .None ∧
      s1.cancel_action_ = false :=
  C4_cancel_tick cancelPending rfl

/-- C5 (evaluation of the code where it departs from the claim). With the recipe active, no
cancel and the cursor on the last entry of the 59-entry program (index 58, the final OCTA
scan), the tick does not read that step: it takes the completion branch, returning before
the `switch` with the cursor reset to 0 and `full_scan_` and `full_scan_read_` cleared, and
without touching the scan trigger or the current and previous action. -/
theorem C5_last_step_not_played (s : State)
    (hc : s.cancel_action_ = false) (hr : s.full_scan_read_ = true) (hpc : s.pc_ = 58) :
    full_scan_recipe.length = 59 ∧
    full_scan_recipe[58]? = some ⟨.Scan, .OCTA, 0⟩ ∧
    ∃ s1, selectAction s = .returned s1 ∧ mainLoop s = some (s1, []) ∧
      s1.pc_ = 0 ∧ s1.full_scan_ = false ∧ s1.full_scan_read_ = false ∧
      s1.current_action_ = s.current_action_ ∧ s1.previous_action_ = s.previous_action_ ∧
      s1.scan_trigger_ = s.scan_trigger_ := by
  refine ⟨rfl, rfl, ?_⟩
  have hsel := selectAction_recipe_done s hr (by rw [hpc, recipe_length]; decide)
  refine ⟨_, hsel, ?_, rfl, rfl, rfl, ?_, ?_, ?_⟩
  · simp only [mainLoop, hc, hsel, Bool.false_eq_true, if_false]
  · unfold syncScanGate
    split_ifs <;> rfl
  · unfold syncScanGate
    split_ifs <;> rfl
  · unfold syncScanGate
    split_ifs <;> rfl

/-- Witness for C5: the initial state with the recipe active and the cursor at 58. -/
theorem C5_last_step_not_played_witness :
    full_scan_recipe.length = 59 ∧
    full_scan_recipe[58]? = some ⟨.Scan, .OCTA, 0⟩ ∧
    ∃ s1, selectAction atLastStep = .returned s1 ∧ mainLoop atLastStep = some (s1, []) ∧
      s1.pc_ = 0 ∧ s1.full_scan_ = false ∧ s1.full_scan_read_ = false ∧
      s1.current_action_ = atLastStep.current_action_ ∧
      s1.previous_action_ = atLastStep.previous_action_ ∧
      s1.scan_trigger_ = atLastStep.scan_trigger_ :=
  C5_last_step_not_played atLastStep rfl rfl rfl

set_option maxRecDepth 100000

/-- C6, as stated, fails. Starting from the initial state, 58 rounds of "autofocus raised,
tick, full scan raised, Focus goal succeeds, all flags released, tick" followed by one more
"autofocus raised, tick, full scan raised, Focus goal succeeds" form a run of ticks,
subscriber updates and result callbacks (each result for a goal that was sent) that ends
with the recipe active and the cursor at 59, which is not below the program length 59. -/
theorem C6_cursor_reaches_program_length :
    (Sys.init.run (focusRounds 58 ++ focusDuringScan)).map
        (fun x => (x.node.full_scan_read_, x.node.pc_,
          decide (x.node.pc_ < full_scan_recipe.length)))
      = some (true, 59, false) := by
  decide

/-- C6, amended. From every state with the recipe active, no cancel and a cursor below
`2 ^ 32 - 1`, a tick does not read the program out of bounds, it completes, and it leaves the
cursor strictly below the program length. -/
theorem C6_tick_restores_cursor_bound (s : State)
    (hc : s.cancel_action_ = false) (hr : s.full_scan_read_ = true)
    (hpc : s.pc_ + 1 < 2 ^ 32) :
    selectAction s ≠ .outOfBounds ∧
    ∃ s1 out, mainLoop s = some (s1, out) ∧ s1.pc_ < full_scan_recipe.length := by
  have hmod : (s.pc_ + 1) % 2 ^ 32 = s.pc_ + 1 := Nat.mod_eq_of_lt hpc
  by_cases h : full_scan_recipe.length ≤ (s.pc_ + 1) % 2 ^ 32
  · have hsel := selectAction_recipe_done s hr h
    refine ⟨by rw [hsel]; exact fun hne => Selected.noConfusion hne,
      { syncScanGate s with pc_ := 0, full_scan_ := false, full_scan_read_ := false }, [],
      ?_, ?_⟩
    · simp only [mainLoop, hc, hsel, Bool.false_eq_true, if_false]
    · rw [recipe_length]
      exact Nat.zero_lt_succ 58
  · have hlt : (s.pc_ + 1) % 2 ^ 32 < full_scan_recipe.length := not_le.mp h
    have hin : s.pc_ < full_scan_recipe.length := by
      rw [hmod] at hlt
      exact Nat.lt_of_succ_lt hlt
    have hstep : full_scan_recipe[s.pc_]? = some (full_scan_recipe[s.pc_]) :=
      List.getElem?_eq_getElem hin
    have hsel := selectAction_recipe_step s hr hlt _ hstep
    refine ⟨by rw [hsel]; exact fun hne => Selected.noConfusion hne,
      (handleAction (loadStep full_scan_recipe[s.pc_] (syncScanGate s))).1,
      (handleAction (loadStep full_scan_recipe[s.pc_] (syncScanGate s))).2, ?_, ?_⟩
    · simp only [mainLoop, hc, hsel, Bool.false_eq_true, if_false]
    · have hload : (loadStep full_scan_recipe[s.pc_] (syncScanGate s)).pc_ = s.pc_ :=
        syncScanGate_pc s
      rcases handleAction_pc (loadStep full_scan_recipe[s.pc_] (syncScanGate s)) with h1 | h1
      · rw [h1, hload]
        exact hin
      · rw [h1, hload]
        exact hlt

/-- Witness for C6 (amended): the recipe active with the cursor on the last entry. -/
theorem C6_tick_restores_cursor_bound_witness :
    selectAction atLastStep ≠ .outOfBounds ∧
    ∃ s1 out, mainLoop atLastStep = some (s1, out) ∧ s1.pc_ < full_scan_recipe.length :=
  C6_tick_restores_cursor_bound atLastStep rfl rfl (by decide)

/-- C7. In the Focus and MoveZangle result callbacks a Succeeded result increments the
cursor (an `unsigned int`, so the successor is taken modulo `2 ^ 32`) when the recipe is
active and leaves it unchanged otherwise; Aborted, Canceled and unknown results leave it
unchanged. -/
theorem C7_cursor_advances_only_on_success (s : State) (yaw : ℚ) :
    (focus_result_callback .SUCCEEDED s).pc_ =
        (if s.full_scan_read_ then (s.pc_ + 1) % 2 ^ 32 else s.pc_) ∧
    (move_z_result_callback yaw .SUCCEEDED s).pc_ =
        (if s.full_scan_read_ then (s.pc_ + 1) % 2 ^ 32 else s.pc_) ∧
    (focus_result_callback .ABORTED s).pc_ = s.pc_ ∧
    (focus_result_callback .CANCELED s).pc_ = s.pc_ ∧
    (focus_result_callback .UNKNOWN s).pc_ = s.pc_ ∧
    (move_z_result_callback yaw .ABORTED s).pc_ = s.pc_ ∧
    (move_z_result_callback yaw .CANCELED s).pc_ = s.pc_ ∧
    (move_z_result_callback yaw .UNKNOWN s).pc_ = s.pc_ :=
  ⟨rfl, rfl, rfl, rfl, rfl, rfl, rfl, rfl⟩

/-- C8 (evaluation of the code where it departs from the claim). With the recipe active on
the MoveZangle step at index 2 (argument 10), no cancel, the previous action not MoveZangle
and the console's "next" flag asserted, the tick sends a MoveZangle goal whose target angle
is the manual increment (0 when `num_pt_` is 0, otherwise `angle_limit_ / num_pt_`), not the
step's argument. -/
theorem C8_manual_flag_overrides_step_argument (s : State)
    (hc : s.cancel_action_ = false) (hr : s.full_scan_read_ = true) (hpc : s.pc_ = 2)
    (hprev : s.previous_action_ ≠ .MoveZangle) (hnext : s.next_ = true) :
    full_scan_recipe[2]? = some ⟨.MoveZangle, .OCT, 10⟩ ∧
    ∃ s1, mainLoop s = some (s1,
      [.sendMoveZAngleGoal (if s.num_pt_ = 0 then 0 else s.angle_limit_ / (s.num_pt_ : ℚ))
        s.radius_ s.angle_]) := by
  refine ⟨rfl, ?_⟩
  have hstep : full_scan_recipe[s.pc_]? = some ⟨.MoveZangle, .OCT, 10⟩ := by rw [hpc]; rfl
  have hsel := selectAction_recipe_step s hr (by rw [hpc, recipe_length]; decide) _ hstep
  obtain ⟨h1, h2, h3, h4, h5, h6⟩ := syncScanGate_frame s
  have hout : (handleAction (loadStep ⟨.MoveZangle, .OCT, 10⟩ (syncScanGate s))).2 =
      [.sendMoveZAngleGoal (if s.num_pt_ = 0 then 0 else s.angle_limit_ / (s.num_pt_ : ℚ))
        s.radius_ s.angle_] := by
    simp only [handleAction, loadStep, h1, h2, h3, h4, h5, h6, hnext, if_true, if_pos hprev]
  refine ⟨(handleAction (loadStep ⟨.MoveZangle, .OCT, 10⟩ (syncScanGate s))).1, ?_⟩
  simp only [mainLoop, hc, hsel, Bool.false_eq_true, if_false, ← hout]

/-- Witness for C8: with the default `angle_limit_ = 0` and `num_pt_ = 1` the goal sent for
the recipe step has target `0 / 1`, not 10. -/
theorem C8_manual_flag_overrides_step_argument_witness :
    full_scan_recipe[2]? = some ⟨.MoveZangle, .OCT, 10⟩ ∧
    ∃ s1, mainLoop nextDuringRecipe = some (s1,
      [.sendMoveZAngleGoal
        (if nextDuringRecipe.num_pt_ = 0 then 0
          else nextDuringRecipe.angle_limit_ / (nextDuringRecipe.num_pt_ : ℚ))
        nextDuringRecipe.radius_ nextDuringRecipe.angle_]) :=
  C8_manual_flag_overrides_step_argument nextDuringRecipe rfl rfl rfl (by decide) rfl

/-- C9 (evaluation of the code where it departs from the claim). With Freedrive the current
and previous action, no cancel, no recipe, the freedrive flag cleared and the reset flag
asserted, the tick sends exactly one request, a Reset goal (no freedrive-disable goal), and
leaves `current_action_` and `previous_action_` at Reset. -/
theorem C9_freedrive_stop_not_sent (s : State)
    (hc : s.cancel_action_ = false) (hr : s.full_scan_read_ = false)
    (_hcur : s.current_action_ = .Freedrive) (hprev : s.previous_action_ = .Freedrive)
    (hfd : s.freedrive_ = false) (hrs : s.reset_ = true) :
    ∃ s1, mainLoop s = some (s1, [.sendResetGoal]) ∧
      s1.current_action_ = .Reset ∧ s1.previous_action_ = .Reset := by
  have hm : manualAction s = .Reset := by simp [manualAction, hfd, hrs]
  rw [mainLoop_manual s hc hr, hm]
  simp [handleAction, hprev]

/-- Witness for C9: freedrive on, then the flag cleared with reset asserted. -/
theorem C9_freedrive_stop_not_sent_witness :
    ∃ s1, mainLoop freedriveThenReset = some (s1, [.sendResetGoal]) ∧
      s1.current_action_ = .Reset ∧ s1.previous_action_ = .Reset :=
  C9_freedrive_stop_not_sent freedriveThenReset rfl rfl rfl rfl rfl rfl

/-- C10, as stated, fails. After "reset raised, tick, reset released" there is no cancel, no
recipe and no flag asserted, yet the next tick runs its `switch` on Reset and leaves
`current_action_` at Reset. -/
theorem C10_stale_action_resolved :
    (Sys.init.run resetReleased).map
        (fun x => (x.node.cancel_action_, x.node.full_scan_read_, noFlag x.node,
          resolvedAction x.node, (mainLoop x.node).map (fun r => r.1.current_action_)))
      = some (false, false, true, some .Reset, some .Reset) := by
  decide

/-- C10, amended. On a tick with no cancel, no active recipe and no flag asserted the
`switch` runs on the value `current_action_` had before the tick; when that value is None the
tick sends nothing and leaves `current_action_` at None. -/
theorem C10_no_flag_keeps_current_action (s : State)
    (hc : s.cancel_action_ = false) (hr : s.full_scan_read_ = false)
    (hf : noFlag s = true) :
    resolvedAction s = some s.current_action_ ∧
    (s.current_action_ = .None →
      resolvedAction s = some .None ∧
      ∃ s1, mainLoop s = some (s1, []) ∧ s1.current_action_ = .None) := by
  have hm : manualAction s = s.current_action_ := by
    have hf2 : (s.freedrive_ || s.reset_ || s.autofocus_ || s.next_ || s.previous_
        || s.home_) = false := by
      unfold noFlag at hf
      cases hb : (s.freedrive_ || s.reset_ || s.autofocus_ || s.next_ || s.previous_
        || s.home_)
      · rfl
      · rw [hb] at hf
        exact absurd hf (by decide)
    simp only [Bool.or_eq_false_iff] at hf2
    obtain ⟨⟨⟨⟨⟨h1, h2⟩, h3⟩, h4⟩, h5⟩, h6⟩ := hf2
    simp [manualAction, h1, h2, h3, h4, h5, h6]
  have hres : resolvedAction s = some s.current_action_ := by
    simp only [resolvedAction, hc, selectAction_manual s hr, hm, Bool.false_eq_true, if_false]
  refine ⟨hres, ?_⟩
  intro hcur
  refine ⟨hcur ▸ hres, ?_⟩
  rw [mainLoop_manual s hc hr, hm]
  simp [handleAction, hcur]

/-- Witness for C10 (amended): the initial state, where nothing is asserted. -/
theorem C10_no_flag_keeps_current_action_witness :
    resolvedAction State.init = some State.init.current_action_ ∧
    (State.init.current_action_ = .None →
      resolvedAction State.init = some .None ∧
      ∃ s1, mainLoop State.init = some (s1, []) ∧ s1.current_action_ = .None) :=
  C10_no_flag_keeps_current_action State.init rfl rfl rfl

/-! ## Claims C11 to C20 -/

theorem manualAction_move_z (s : State)
    (hfd : s.freedrive_ = false) (hrs : s.reset_ = false) (haf : s.autofocus_ = false)
    (hmv : (s.next_ || s.previous_ || s.home_) = true) :
    manualAction s = .MoveZangle := by
  simp only [manualAction, hfd, hrs, haf, hmv, Bool.false_eq_true, if_false, if_true]

theorem handleAction_move_z (s : State) (hcur : s.current_action_ = .MoveZangle)
    (hprev : s.previous_action_ ≠ .MoveZangle) :
    handleAction s =
      ({ s with
          angle_increment_ := angleIncrement s
          yaw_ := dispatchYaw s
          circle_state_ := if |s.angle_| < 1 / 1000000 then 1 else s.circle_state_
          current_action_ := .None
          previous_action_ := .MoveZangle },
       [.sendMoveZAngleGoal (dispatchYaw s) s.radius_ s.angle_]) := by
  have hne : s.previous_action_ ≠ s.current_action_ := by rw [hcur]; exact hprev
  simp only [handleAction, hcur, angleIncrement, dispatchYaw]
  rw [if_pos (hcur ▸ hne)]

theorem mainLoop_move_z (s : State)
    (hc : s.cancel_action_ = false) (hr : s.full_scan_read_ = false)
    (hfd : s.freedrive_ = false) (hrs : s.reset_ = false) (haf : s.autofocus_ = false)
    (hmv : (s.next_ || s.previous_ || s.home_) = true)
    (hprev : s.previous_action_ ≠ .MoveZangle) :
    mainLoop s =
      some ({ s with
          angle_increment_ := angleIncrement s
          yaw_ := dispatchYaw s
          circle_state_ := if |s.angle_| < 1 / 1000000 then 1 else s.circle_state_
          current_action_ := .None
          previous_action_ := .MoveZangle },
       [.sendMoveZAngleGoal (dispatchYaw s) s.radius_ s.angle_]) := by
  rw [mainLoop_manual s hc hr, manualAction_move_z s hfd hrs haf hmv,
    handleAction_move_z { s with current_action_ := .MoveZangle } rfl hprev]
  rfl

/-- C11. On a manual MoveZangle dispatch (no cancel, no recipe, no higher-priority flag, one
of next/previous/home asserted, previous action not MoveZangle) the tick sends one
MoveZangle goal; the stored increment is 0 when `num_pt_` is 0 and `angle_limit_ / num_pt_`
otherwise; the yaw sent is the increment when next is set, its negative when previous is
set and next is not, and the negative of the accumulated angle when only home is set. -/
theorem C11_manual_move_z_yaw (s : State)
    (hc : s.cancel_action_ = false) (hr : s.full_scan_read_ = false)
    (hfd : s.freedrive_ = false) (hrs : s.reset_ = false) (haf : s.autofocus_ = false)
    (hmv : (s.next_ || s.previous_ || s.home_) = true)
    (hprev : s.previous_action_ ≠ .MoveZangle) :
    ∃ s1 yaw, mainLoop s = some (s1, [.sendMoveZAngleGoal yaw s.radius_ s.angle_]) ∧
      s1.yaw_ = yaw ∧
      (s.num_pt_ = 0 → s1.angle_increment_ = 0) ∧
      (s.num_pt_ ≠ 0 → s1.angle_increment_ = s.angle_limit_ / (s.num_pt_ : ℚ)) ∧
      (s.next_ = true → yaw = s1.angle_increment_) ∧
      (s.next_ = false → s.previous_ = true → yaw = -s1.angle_increment_) ∧
      (s.next_ = false → s.previous_ = false → s.home_ = true → yaw = -s.angle_) := by
  refine ⟨_, _, mainLoop_move_z s hc hr hfd hrs haf hmv hprev, rfl, ?_, ?_, ?_, ?_, ?_⟩
  · intro h0
    simp only [angleIncrement, h0, if_true]
  · intro h0
    simp only [angleIncrement, h0, if_false]
  · intro h1
    simp only [dispatchYaw, h1, if_true]
  · intro h1 h2
    simp only [dispatchYaw, h1, h2, Bool.false_eq_true, if_false, if_true]
  · intro h1 h2 h3
    simp only [dispatchYaw, h1, h2, h3, Bool.false_eq_true, if_false, if_true]

/-- Witness for C11: "next" with `angle_limit_ = 30` and `num_pt_ = 3`. -/
theorem C11_manual_move_z_yaw_witness :
    ∃ s1 yaw, mainLoop nextRequested
        = some (s1, [.sendMoveZAngleGoal yaw nextRequested.radius_ nextRequested.angle_]) ∧
      s1.yaw_ = yaw ∧
      (nextRequested.num_pt_ = 0 → s1.angle_increment_ = 0) ∧
      (nextRequested.num_pt_ ≠ 0 →
        s1.angle_increment_ = nextRequested.angle_limit_ / (nextRequested.num_pt_ : ℚ)) ∧
      (nextRequested.next_ = true → yaw = s1.angle_increment_) ∧
      (nextRequested.next_ = false → nextRequested.previous_ = true →
        yaw = -s1.angle_increment_) ∧
      (nextRequested.next_ = false → nextRequested.previous_ = false →
        nextRequested.home_ = true → yaw = -nextRequested.angle_) :=
  C11_manual_move_z_yaw nextRequested rfl rfl rfl rfl rfl rfl (by decide)

/-- C12. A Succeeded MoveZangle result with goal yaw `y` adds `y` to the accumulated angle
and changes the lap counter by +1 when `y` is positive and by -1 when `y` is negative. A
manual home dispatch from `s0` sends the yaw `-s0.angle_` and leaves the angle as it is, so
its Succeeded result, delivered in any state with that same angle, makes the angle 0. -/
theorem C12_success_updates_angle_and_lap (s : State) (y : ℚ) (s0 : State)
    (hc : s0.cancel_action_ = false) (hr : s0.full_scan_read_ = false)
    (hfd : s0.freedrive_ = false) (hrs : s0.reset_ = false) (haf : s0.autofocus_ = false)
    (hnx : s0.next_ = false) (hpv : s0.previous_ = false) (hhm : s0.home_ = true)
    (hprev : s0.previous_action_ ≠ .MoveZangle) :
    (move_z_result_callback y .SUCCEEDED s).angle_ = s.angle_ + y ∧
    (0 < y → (move_z_result_callback y .SUCCEEDED s).circle_state_ = s.circle_state_ + 1) ∧
    (y < 0 → (move_z_result_callback y .SUCCEEDED s).circle_state_ = s.circle_state_ - 1) ∧
    ∃ s1, mainLoop s0 = some (s1, [.sendMoveZAngleGoal (-s0.angle_) s0.radius_ s0.angle_]) ∧
      s1.angle_ = s0.angle_ ∧
      (move_z_result_callback (-s0.angle_) .SUCCEEDED s1).angle_ = 0 ∧
      ∀ s2 : State, s2.angle_ = s0.angle_ →
        (move_z_result_callback (-s0.angle_) .SUCCEEDED s2).angle_ = 0 := by
  refine ⟨rfl, ?_, ?_, ?_⟩
  · intro hy
    simp only [move_z_result_callback, gt_iff_lt, hy, if_true]
  · intro hy
    have hy2 : ¬ (0 < y) := not_lt.mpr (le_of_lt hy)
    simp only [move_z_result_callback, gt_iff_lt, hy2, if_false]
  · have hmv : (s0.next_ || s0.previous_ || s0.home_) = true := by simp [hhm]
    have hyaw : dispatchYaw s0 = -s0.angle_ := by
      simp only [dispatchYaw, hnx, hpv, hhm, Bool.false_eq_true, if_false, if_true]
    have hml := mainLoop_move_z s0 hc hr hfd hrs haf hmv hprev
    rw [hyaw] at hml
    refine ⟨_, hml, rfl, ?_, ?_⟩
    · show s0.angle_ + -s0.angle_ = 0
      exact add_neg_cancel s0.angle_
    · intro s2 h2
      show s2.angle_ + -s0.angle_ = 0
      rw [h2]
      exact add_neg_cancel s0.angle_

/-- Witness for C12: "home" at accumulated angle 20. -/
theorem C12_success_updates_angle_and_lap_witness :
    (move_z_result_callback 10 .SUCCEEDED nextRequested).angle_ = nextRequested.angle_ + 10 ∧
    ((0 : ℚ) < 10 → (move_z_result_callback 10 .SUCCEEDED nextRequested).circle_state_
      = nextRequested.circle_state_ + 1) ∧
    ((10 : ℚ) < 0 → (move_z_result_callback 10 .SUCCEEDED nextRequested).circle_state_
      = nextRequested.circle_state_ - 1) ∧
    ∃ s1, mainLoop homeRequested = some (s1,
        [.sendMoveZAngleGoal (-homeRequested.angle_) homeRequested.radius_
          homeRequested.angle_]) ∧
      s1.angle_ = homeRequested.angle_ ∧
      (move_z_result_callback (-homeRequested.angle_) .SUCCEEDED s1).angle_ = 0 ∧
      ∀ s2 : State, s2.angle_ = homeRequested.angle_ →
        (move_z_result_callback (-homeRequested.angle_) .SUCCEEDED s2).angle_ = 0 :=
  C12_success_updates_angle_and_lap nextRequested 10 homeRequested rfl rfl rfl rfl rfl rfl rfl
    rfl (by decide)

/-- C13 (evaluation of the code where it departs from the claim). From the initial state
(angle 0, lap counter 1) with a 10 degree increment, "next", "next" and "home", each move
succeeding, end with the accumulated angle 0 and the lap counter 2. -/
theorem C13_lap_counter_after_home :
    (Sys.init.run nextNextHome).map (fun x => (x.node.angle_, x.node.circle_state_))
      = some (0, 2) := by
  decide!

/-- C14. An Aborted, Canceled or unknown MoveZangle result leaves the accumulated angle, the
lap counter and the recipe cursor as they were. -/
theorem C14_failed_move_z_keeps_motion_state (s : State) (yaw : ℚ) :
    (move_z_result_callback yaw .ABORTED s).angle_ = s.angle_ ∧
    (move_z_result_callback yaw .ABORTED s).circle_state_ = s.circle_state_ ∧
    (move_z_result_callback yaw .ABORTED s).pc_ = s.pc_ ∧
    (move_z_result_callback yaw .CANCELED s).angle_ = s.angle_ ∧
    (move_z_result_callback yaw .CANCELED s).circle_state_ = s.circle_state_ ∧
    (move_z_result_callback yaw .CANCELED s).pc_ = s.pc_ ∧
    (move_z_result_callback yaw .UNKNOWN s).angle_ = s.angle_ ∧
    (move_z_result_callback yaw .UNKNOWN s).circle_state_ = s.circle_state_ ∧
    (move_z_result_callback yaw .UNKNOWN s).pc_ = s.pc_ :=
  ⟨rfl, rfl, rfl, rfl, rfl, rfl, rfl, rfl, rfl⟩

/-- C15. `handle_goal` of the MoveZangle server returns REJECT exactly when a stored goal
handle exists and is active; otherwise it returns ACCEPT_AND_EXECUTE and stores the goal's
radius and angle; on REJECT the server's members are unchanged. -/
theorem C15_move_z_handle_goal (goal : MoveZAngleGoal) (srv : MoveZAngleActionServer) :
    ((MoveZAngleActionServer.handle_goal goal srv).1 = .REJECT ↔
      ∃ status, srv.active_goal_handle_ = some status ∧ is_active status = true) ∧
    ((MoveZAngleActionServer.handle_goal goal srv).1 ≠ .REJECT →
      (MoveZAngleActionServer.handle_goal goal srv).1 = .ACCEPT_AND_EXECUTE ∧
      (MoveZAngleActionServer.handle_goal goal srv).2.radius_ = goal.radius ∧
      (MoveZAngleActionServer.handle_goal goal srv).2.angle_ = goal.angle) ∧
    ((MoveZAngleActionServer.handle_goal goal srv).1 = .REJECT →
      (MoveZAngleActionServer.handle_goal goal srv).2 = srv) := by
  unfold MoveZAngleActionServer.handle_goal
  rcases h : srv.active_goal_handle_ with _ | status
  · simp
  · cases ha : is_active status <;> simp [ha]

theorem cancelFrom_active {env : FocusEnv} {T : Nat} (h : CancelFrom env T) (t : Nat) :
    is_active (env.status t) = true := by
  rw [h t]
  split_ifs <;> rfl

theorem cancelFrom_canceling {env : FocusEnv} {T : Nat} (h : CancelFrom env T) (t : Nat) :
    is_canceling (env.status t) = decide (T ≤ t) := by
  rw [h t]
  by_cases ht : t < T
  · rw [if_pos ht, decide_eq_false (not_le.mpr ht)]
    rfl
  · rw [if_neg ht, decide_eq_true (not_lt.mp ht)]
    rfl

theorem cancelFrom_checkpoint {env : FocusEnv} {T : Nat} (h : CancelFrom env T)
    (srv : FocusActionServer) (t : Nat) :
    FocusActionServer.checkpoint env srv t =
      if T ≤ t + 1 then .exit ⟨.canceled, srv, t + 2⟩ else .cont srv (t + 2) := by
  unfold FocusActionServer.checkpoint
  rw [cancelFrom_active h, cancelFrom_canceling h]
  simp

theorem scanLoop_safe {env : FocusEnv} {T : Nat} (h : CancelFrom env T) (activate : Bool) :
    ∀ (fuel : Nat) (srv : FocusActionServer) (t : Nat), T - t < fuel →
      ∃ f, FocusActionServer.scanLoop env activate fuel srv t = some f ∧
        f.safe env T t 1 := by
  intro fuel
  induction fuel with
  | zero => intro srv t ht; exact absurd ht (Nat.not_lt_zero _)
  | succ fuel ih =>
      intro srv t ht
      unfold FocusActionServer.scanLoop
      by_cases hcall : env.call_scan3d t activate = true
      · rw [if_pos hcall]
        exact ⟨_, rfl, Nat.le_refl _⟩
      · rw [if_neg hcall, cancelFrom_checkpoint h]
        by_cases hT : T ≤ t + 1 + 1
        · rw [if_pos hT]
          exact ⟨_, rfl, (fun hb => by cases hb), Or.inl rfl⟩
        · rw [if_neg hT]
          by_cases hto : env.timed_out (t + 1 + 2) = true
          · simp only [hto, if_true]
            refine ⟨_, rfl, (fun hb => by cases hb), Or.inr (Or.inl ?_)⟩
            show t + 1 + 2 + 1 ≤ T + 1
            omega
          · simp only [hto, Bool.false_eq_true, if_false]
            obtain ⟨f, hf, hs⟩ := ih srv (t + 1 + 2 + 1) (by omega)
            refine ⟨f, hf, ?_⟩
            cases f with
            | exit run => exact hs
            | cont s1 t1 =>
                show t + 1 ≤ t1
                have : t + 1 + 2 + 1 + 1 ≤ t1 := hs
                omega

theorem acquireImage_safe (env : FocusEnv) (T : Nat) (srv : FocusActionServer) (t : Nat) :
    (FocusActionServer.acquireImage env srv t).safe env T t 1 := by
  unfold FocusActionServer.acquireImage
  by_cases himg : env.frame_arrives t = true
  · rw [if_pos himg]
    exact Nat.le_refl _
  · rw [if_neg himg]
    exact ⟨fun _ => ⟨t, by simpa using himg⟩, Or.inr (Or.inr rfl)⟩

theorem acquireImages_safe (env : FocusEnv) (T : Nat) :
    ∀ (n : Nat) (srv : FocusActionServer) (t : Nat),
      (FocusActionServer.acquireImages env n srv t).safe env T t 0 := by
  intro n
  induction n with
  | zero =>
      intro srv t
      exact Nat.le_refl _
  | succ n ih =>
      intro srv t
      unfold FocusActionServer.acquireImages
      have hs := acquireImage_safe env T srv t
      revert hs
      cases FocusActionServer.acquireImage env srv t with
      | exit run => exact fun hs => hs
      | cont s1 t1 =>
          intro hs
          have h1 : t + 1 ≤ t1 := hs
          have hgs := ih s1 t1
          revert hgs
          show (FocusActionServer.acquireImages env n s1 t1).safe env T t1 0 →
            (FocusActionServer.acquireImages env n s1 t1).safe env T t 0
          cases FocusActionServer.acquireImages env n s1 t1 with
          | exit run => exact fun hgs => hgs
          | cont s2 t2 =>
              intro hgs
              show t + 0 ≤ t2
              have : t1 + 0 ≤ t2 := hgs
              omega

theorem planAndExecute_safe {env : FocusEnv} {T : Nat} (h : CancelFrom env T)
    (srv : FocusActionServer) (t : Nat) :
    (FocusActionServer.planAndExecute env srv t).safe env T t 0 := by
  unfold FocusActionServer.planAndExecute
  by_cases hp : srv.planning_ = true
  · rw [if_pos hp]
    by_cases hplan : env.plan t = true
    · simp only [hplan, if_true, cancelFrom_checkpoint h]
      by_cases hT : T ≤ t + 1 + 1
      · rw [if_pos hT]
        exact ⟨(fun hb => by cases hb), Or.inl rfl⟩
      · rw [if_neg hT]
        simp only
        split_ifs <;> (show t + 0 ≤ t + 1 + 2 + 1; omega)
    · simp only [hplan, Bool.false_eq_true, if_false]
      show t + 0 ≤ t + 1
      omega
  · rw [if_neg hp]
    exact Nat.le_refl _

theorem iteration_safe {env : FocusEnv} {T : Nat} (h : CancelFrom env T)
    (fuel : Nat) (srv : FocusActionServer) (t : Nat) (ht : T - t < fuel + 1) :
    ∃ f, FocusActionServer.iteration env fuel srv t = some f ∧ f.safe env T t 2 ∧
      (∀ s1 t1, f = .cont s1 t1 → t + 1 < T) := by
  unfold FocusActionServer.iteration
  rw [cancelFrom_checkpoint h]
  by_cases hT : T ≤ t + 1
  · rw [if_pos hT]
    exact ⟨_, rfl, ⟨(fun hb => by cases hb), Or.inl rfl⟩, fun _ _ hf => Flow.noConfusion hf⟩
  · rw [if_neg hT]
    have hlt : t + 1 < T := not_le.mp hT
    obtain ⟨f1, hf1, hs1⟩ := scanLoop_safe h true fuel srv (t + 2) (by omega)
    simp only [hf1]
    cases f1 with
    | exit run => exact ⟨_, rfl, hs1, fun _ _ hf => Flow.noConfusion hf⟩
    | cont s1 t1 =>
        have h1 : t + 2 + 1 ≤ t1 := hs1
        have hs2 := acquireImages_safe env T FocusActionServer.interval_ s1 t1
        rcases hacq : FocusActionServer.acquireImages env FocusActionServer.interval_ s1 t1
          with run | ⟨s2, t2⟩
        · rw [hacq] at hs2
          simp only [hacq]
          exact ⟨_, rfl, hs2, fun _ _ hf => Flow.noConfusion hf⟩
        · rw [hacq] at hs2
          simp only [hacq]
          have h2 : t1 + 0 ≤ t2 := hs2
          obtain ⟨f3, hf3, hs3⟩ := scanLoop_safe h false fuel s2 t2 (by omega)
          simp only [hf3]
          cases f3 with
          | exit run => exact ⟨_, rfl, hs3, fun _ _ hf => Flow.noConfusion hf⟩
          | cont s3 t3 =>
              have h3 : t2 + 1 ≤ t3 := hs3
              have hs4 := planAndExecute_safe h
                (FocusActionServer.requestPlanning (FocusActionServer.checkHeight
                  (FocusActionServer.checkAngle env.rad_per_deg
                    (FocusActionServer.takeMeasurement (env.measure t3) s3))))
                (t3 + 1)
              refine ⟨_, rfl, ?_, fun _ _ _ => hlt⟩
              revert hs4
              cases FocusActionServer.planAndExecute env
                (FocusActionServer.requestPlanning (FocusActionServer.checkHeight
                  (FocusActionServer.checkAngle env.rad_per_deg
                    (FocusActionServer.takeMeasurement (env.measure t3) s3))))
                (t3 + 1) with
              | exit run => exact fun hs4 => hs4
              | cont s4 t4 =>
                  intro hs4
                  show t + 2 ≤ t4
                  have : t3 + 1 + 0 ≤ t4 := hs4
                  omega

theorem finish_safe {env : FocusEnv} {T : Nat} (h : CancelFrom env T)
    (srv : FocusActionServer) (t : Nat) :
    (FocusActionServer.finish env srv t).outcome ≠ .blocked ∧
    ((FocusActionServer.finish env srv t).outcome = .canceled ∨
      (FocusActionServer.finish env srv t).clock ≤ T + 1) := by
  unfold FocusActionServer.finish
  rw [cancelFrom_active h, cancelFrom_active h, cancelFrom_canceling h]
  by_cases hT : T ≤ t + 1
  · simp [hT]
  · refine ⟨?_, Or.inr ?_⟩
    · simp [hT]
    · simp only [Bool.not_true, Bool.false_eq_true, if_false, decide_eq_true_eq, hT, if_true]
      show t + 3 ≤ T + 1
      omega

theorem whileLoop_safe {env : FocusEnv} {T : Nat} (h : CancelFrom env T) :
    ∀ (fuel : Nat) (srv : FocusActionServer) (t : Nat), T - t < fuel →
      ∃ r, FocusActionServer.whileLoop env fuel srv t = some r ∧
        (r.outcome = .blocked → ∃ q, env.frame_arrives q = false) ∧
        (r.outcome = .canceled ∨ r.clock ≤ T + 1 ∨ r.outcome = .blocked) := by
  intro fuel
  induction fuel with
  | zero => intro srv t ht; exact absurd ht (Nat.not_lt_zero _)
  | succ fuel ih =>
      intro srv t ht
      unfold FocusActionServer.whileLoop
      by_cases hfoc : (!srv.angle_focused_ || !srv.z_focused_) = true
      · rw [if_pos hfoc]
        obtain ⟨f, hf, hs, hcont⟩ := iteration_safe h fuel srv t ht
        simp only [hf]
        cases f with
        | exit run => exact ⟨_, rfl, hs⟩
        | cont s1 t1 =>
            have h1 : t + 2 ≤ t1 := hs
            have h2 : t + 1 < T := hcont s1 t1 rfl
            exact ih s1 t1 (by omega)
      · rw [if_neg hfoc]
        obtain ⟨h0, h1⟩ := finish_safe h srv t
        refine ⟨_, rfl, fun hb => absurd hb h0, ?_⟩
        rcases h1 with h1 | h1
        · exact Or.inl h1
        · exact Or.inr (Or.inl h1)

/-- C16, as stated, fails. With every measurement within tolerance, a cancellation that is
requested while the goal is executing, after the task's last `is_canceling` check (query
13) and before its call of `succeed`, and that stays requested, ends with the task
reporting Succeeded. -/
theorem C16_cancel_after_last_check_succeeds :
    (FocusActionServer.execute (alignedEnv 14) 2 alignGoal 0).map
        (fun r => (r.outcome, r.clock)) = some (.succeeded, 15) ∧
    (alignedEnv 14).status 13 = .STATUS_EXECUTING ∧
    (alignedEnv 14).status 14 = .STATUS_CANCELING := by
  decide!

/-- C16, amended. In every run of the Focus execution task in which cancellation is
requested at query `T` while the goal is executing and stays requested, the model run ends
(more than `T` units of fuel suffice) in one of three ways: the task reports Canceled; or it
ends at most one query after the request, that is, the request came after its last
cancellation check; or it is blocked in `get_img` because a frame did not arrive, in which
case the task never returns. When every frame arrives the task therefore terminates, and a
request that is in place at one of its checks ends Canceled, whatever the measurements are.
With a stalled camera the task is blocked at its first frame and a later request is never
seen. -/
theorem C16_cancel_seen_by_a_check_ends_canceled (env : FocusEnv) (T : Nat)
    (srv : FocusActionServer) (h : CancelFrom env T) (fuel : Nat) (hfuel : T < fuel) :
    (∃ r, FocusActionServer.execute env fuel srv 0 = some r ∧
      (r.outcome = .canceled ∨ r.clock ≤ T + 1 ∨ r.outcome = .blocked) ∧
      (r.outcome = .blocked → ∃ q, env.frame_arrives q = false) ∧
      ((∀ q, env.frame_arrives q = true) →
        r.outcome ≠ .blocked ∧ (r.outcome = .canceled ∨ r.clock ≤ T + 1))) ∧
    (FocusActionServer.execute (stalledEnv 6) 7 alignGoal 0).map
        (fun r => (r.outcome, r.clock)) = some (.blocked, 5) := by
  refine ⟨?_, by decide!⟩
  unfold FocusActionServer.execute
  rw [cancelFrom_active h]
  simp only [Bool.not_true, Bool.false_eq_true, if_false]
  obtain ⟨r, hr, hb, hs⟩ := whileLoop_safe h fuel
    { srv with angle_focused_ := false, z_focused_ := false } 1 (by omega)
  refine ⟨r, hr, hs, hb, fun hall => ?_⟩
  have hnb : r.outcome ≠ .blocked := by
    intro hbl
    obtain ⟨q, hq⟩ := hb hbl
    rw [hall q] at hq
    cases hq
  refine ⟨hnb, ?_⟩
  rcases hs with h1 | h1 | h1
  · exact Or.inl h1
  · exact Or.inr h1
  · exact absurd h1 hnb

/-- Witness for C16 (amended): cancellation requested at query 5, during image
acquisition, with every measurement within tolerance. -/
theorem C16_cancel_seen_by_a_check_ends_canceled_witness :
    (∃ r, FocusActionServer.execute (alignedEnv 5) 6 alignGoal 0 = some r ∧
      (r.outcome = .canceled ∨ r.clock ≤ 5 + 1 ∨ r.outcome = .blocked) ∧
      (r.outcome = .blocked → ∃ q, (alignedEnv 5).frame_arrives q = false) ∧
      ((∀ q, (alignedEnv 5).frame_arrives q = true) →
        r.outcome ≠ .blocked ∧ (r.outcome = .canceled ∨ r.clock ≤ 5 + 1))) ∧
    (FocusActionServer.execute (stalledEnv 6) 7 alignGoal 0).map
        (fun r => (r.outcome, r.clock)) = some (.blocked, 5) :=
  C16_cancel_seen_by_a_check_ends_canceled (alignedEnv 5) 5 alignGoal (fun _ => rfl) 6
    (by decide)

/-- C17. For a positive radians-per-degree factor, `tol_measure` is true exactly when
`|roll|` and `|pitch|` are both strictly below the tolerance converted to radians; with
roll 0.05 degrees and pitch 0.03 degrees it is true for a tolerance of 0.1 degrees and
false for 0.02 degrees. -/
theorem C17_tol_measure {K : Type} [LinearOrderedField K] (k : K) (hk : 0 < k) :
    (∀ roll pitch tol : K,
      FocusActionServer.tol_measure k roll pitch tol = true ↔
        (|roll| < to_radian k tol ∧ |pitch| < to_radian k tol)) ∧
    FocusActionServer.tol_measure k (to_radian k (5 / 100)) (to_radian k (3 / 100)) (1 / 10)
      = true ∧
    FocusActionServer.tol_measure k (to_radian k (5 / 100)) (to_radian k (3 / 100)) (2 / 100)
      = false := by
  have h5 : |(5 / 100 : K) * k| = 5 / 100 * k :=
    abs_of_pos (mul_pos (by norm_num) hk)
  have h3 : |(3 / 100 : K) * k| = 3 / 100 * k :=
    abs_of_pos (mul_pos (by norm_num) hk)
  refine ⟨?_, ?_, ?_⟩
  · intro roll pitch tol
    simp [FocusActionServer.tol_measure]
  · simp only [FocusActionServer.tol_measure, to_radian, h5, h3, Bool.and_eq_true,
      decide_eq_true_eq]
    constructor
    · exact mul_lt_mul_of_pos_right (by norm_num : (5 / 100 : K) < 1 / 10) hk
    · exact mul_lt_mul_of_pos_right (by norm_num : (3 / 100 : K) < 1 / 10) hk
  · simp only [FocusActionServer.tol_measure, to_radian, h5, h3, Bool.and_eq_false_iff,
      decide_eq_false_iff_not, not_lt]
    left
    exact mul_le_mul_of_nonneg_right (by norm_num : (2 / 100 : K) ≤ 5 / 100) (le_of_lt hk)

/-- Witness for C17: the reals with π / 180 radians per degree. -/
theorem C17_tol_measure_witness :
    (∀ roll pitch tol : ℝ,
      FocusActionServer.tol_measure (Real.pi / 180) roll pitch tol = true ↔
        (|roll| < to_radian (Real.pi / 180) tol ∧ |pitch| < to_radian (Real.pi / 180) tol)) ∧
    FocusActionServer.tol_measure (Real.pi / 180) (to_radian (Real.pi / 180) (5 / 100))
      (to_radian (Real.pi / 180) (3 / 100)) (1 / 10) = true ∧
    FocusActionServer.tol_measure (Real.pi / 180) (to_radian (Real.pi / 180) (5 / 100))
      (to_radian (Real.pi / 180) (3 / 100)) (2 / 100) = false :=
  C17_tol_measure (Real.pi / 180) (div_pos Real.pi_pos (by norm_num))

theorem checkAngle_height (k : ℚ) (srv : FocusActionServer) :
    (FocusActionServer.checkAngle k srv).dz_ = srv.dz_ ∧
    (FocusActionServer.checkAngle k srv).z_tolerance_ = srv.z_tolerance_ := by
  rcases h1 : FocusActionServer.tol_measure k srv.roll_ srv.pitch_ srv.angle_tolerance_
    with _ | _ <;>
    rcases h2 : srv.skip_angle_tolerance_ with _ | _ <;>
    rcases h3 : srv.planning_ with _ | _ <;>
    simp [FocusActionServer.checkAngle, h1, h2, h3]

/-- C18. In each focus iteration the height error is
`(z_height_ - center.z) / scale` with the scale factor `px_per_mm * 1000`, and the height is
focused exactly when the absolute value of the error is strictly below `z_tolerance_ / 1000`,
the tolerance in the units of the error. With target height 100, centre height 100.5 and
scale 1000 the formula gives -0.0005, which the height test accepts for a tolerance of 0.001
(`z_tolerance_ = 1`). With the scale the program fixes, 55 * 1000, the same inputs give
-1/110000, which is accepted as well. -/
theorem C18_height_error_and_tolerance (k : ℚ) (m : Measurement) (srv : FocusActionServer) :
    (FocusActionServer.takeMeasurement m srv).dz_ =
      heightError FocusActionServer.px_per_mm srv.z_height_ m.center_z ∧
    (∀ p z c : ℚ, heightError p z c = (z - c) / (p * 1000)) ∧
    ((FocusActionServer.checkHeight (FocusActionServer.checkAngle k
        (FocusActionServer.takeMeasurement m srv))).z_focused_ = true ↔
      |(FocusActionServer.takeMeasurement m srv).dz_| < srv.z_tolerance_ / 1000) ∧
    ((FocusActionServer.checkHeight srv).z_focused_ = true ↔
      |srv.dz_| < srv.z_tolerance_ / 1000) ∧
    heightError 1 100 (1005 / 10) = -5 / 10000 ∧
    heightGoal.z_tolerance_ / 1000 = 1 / 1000 ∧
    (FocusActionServer.checkHeight
      { heightGoal with dz_ := heightError 1 100 (1005 / 10) }).z_focused_ = true ∧
    (FocusActionServer.takeMeasurement m srv).dz_ = (srv.z_height_ - m.center_z) / 55000 ∧
    (FocusActionServer.takeMeasurement heightMeasurement heightGoal).dz_ = -1 / 110000 ∧
    (FocusActionServer.checkHeight (FocusActionServer.checkAngle k
      (FocusActionServer.takeMeasurement heightMeasurement heightGoal))).z_focused_ = true := by
  have hdz : ∀ (m : Measurement) (srv : FocusActionServer),
      (FocusActionServer.takeMeasurement m srv).dz_ = (srv.z_height_ - m.center_z) / 55000 := by
    intro m srv
    simp only [FocusActionServer.takeMeasurement, FocusActionServer.px_per_mm]
    norm_num
  have hh : ∀ srv : FocusActionServer,
      ((FocusActionServer.checkHeight srv).z_focused_ = true ↔
        |srv.dz_| < srv.z_tolerance_ / 1000) := by
    intro srv
    unfold FocusActionServer.checkHeight
    split_ifs with h <;> simp [h]
  have hfoc : ∀ (m : Measurement) (srv : FocusActionServer),
      ((FocusActionServer.checkHeight (FocusActionServer.checkAngle k
          (FocusActionServer.takeMeasurement m srv))).z_focused_ = true ↔
        |(FocusActionServer.takeMeasurement m srv).dz_| < srv.z_tolerance_ / 1000) := by
    intro m srv
    obtain ⟨h1, h2⟩ := checkAngle_height k (FocusActionServer.takeMeasurement m srv)
    rw [hh, h1, h2]
    rfl
  refine ⟨rfl, fun _ _ _ => rfl, hfoc m srv, hh srv, ?_, ?_, ?_, hdz m srv, ?_, ?_⟩
  · norm_num [heightError]
  · norm_num [heightGoal]
  · rw [hh]
    norm_num [heightError, heightGoal, abs_lt]
  · rw [hdz]
    norm_num [heightGoal, heightMeasurement]
  · rw [hfoc, hdz]
    norm_num [heightGoal, heightMeasurement, abs_lt]

theorem foldl_shortest (xs : List MotionPlanResponse) (x : MotionPlanResponse) :
    xs.foldl (fun smallest y =>
        if (if y.success && smallest.success then decide (y.path_length < smallest.path_length)
            else y.success) then y else smallest) x ∈ x :: xs ∧
    ∀ z ∈ x :: xs, z.success = true →
      (xs.foldl (fun smallest y =>
        if (if y.success && smallest.success then decide (y.path_length < smallest.path_length)
            else y.success) then y else smallest) x).success = true ∧
      (xs.foldl (fun smallest y =>
        if (if y.success && smallest.success then decide (y.path_length < smallest.path_length)
            else y.success) then y else smallest) x).path_length ≤ z.path_length := by
  induction xs generalizing x with
  | nil =>
      refine ⟨List.mem_singleton.mpr rfl, ?_⟩
      intro z hz hs
      rw [List.mem_singleton] at hz
      subst hz
      exact ⟨hs, le_refl _⟩
  | cons y ys ih =>
      simp only [List.foldl_cons]
      obtain ⟨hmem, hmin⟩ := ih
        (if (if y.success && x.success then decide (y.path_length < x.path_length)
            else y.success) then y else x)
      have hpick : ∀ w : MotionPlanResponse,
          w = (if (if y.success && x.success then decide (y.path_length < x.path_length)
            else y.success) then y else x) →
          (w = x ∨ w = y) ∧
          (x.success = true → w.success = true ∧ w.path_length ≤ x.path_length) ∧
          (y.success = true → w.success = true ∧ w.path_length ≤ y.path_length) := by
        intro w hw
        rcases hy : y.success with _ | _ <;> rcases hx : x.success with _ | _
        · simp [hy, hx] at hw
          subst hw
          simp [hx]
        · simp [hy, hx] at hw
          subst hw
          simp [hx]
        · simp [hy, hx] at hw
          subst hw
          simp [hy]
        · by_cases hlt : y.path_length < x.path_length
          · simp [hy, hx, hlt] at hw
            subst hw
            simp [hy, le_of_lt hlt]
          · simp [hy, hx, hlt] at hw
            subst hw
            simp [hx, not_lt.mp hlt]
      obtain ⟨hxy, hwx, hwy⟩ := hpick _ rfl
      refine ⟨?_, ?_⟩
      · rcases List.mem_cons.mp hmem with h | h
        · rcases hxy with h2 | h2
          · rw [h, h2]
            exact List.mem_cons_self _ _
          · rw [h, h2]
            exact List.mem_cons_of_mem _ (List.mem_cons_self _ _)
        · exact List.mem_cons_of_mem _ (List.mem_cons_of_mem _ h)
      · intro z hz hs
        rcases List.mem_cons.mp hz with h | h
        · subst h
          obtain ⟨h1, h2⟩ := hwx hs
          obtain ⟨h3, h4⟩ := hmin _ (List.mem_cons_self _ _) h1
          exact ⟨h3, le_trans h4 h2⟩
        · rcases List.mem_cons.mp h with h | h
          · subst h
            obtain ⟨h1, h2⟩ := hwy hs
            obtain ⟨h3, h4⟩ := hmin _ (List.mem_cons_self _ _) h1
            exact ⟨h3, le_trans h4 h2⟩
          · exact hmin z (List.mem_cons_of_mem _ h) hs

/-- C19. On a non-empty list of candidates both copies of `choose_shortest` return the same
candidate of the list; it is successful whenever some candidate succeeded, its path length
is at most that of every successful candidate, and it is a failed candidate when none
succeeded. -/
theorem C19_choose_shortest (sols : List MotionPlanResponse) (hne : sols ≠ []) :
    ∃ c, FocusActionServer.choose_shortest sols = some c ∧
      MoveZAngleActionServer.choose_shortest sols = some c ∧
      c ∈ sols ∧
      ((∃ x ∈ sols, x.success = true) → c.success = true) ∧
      (∀ x ∈ sols, x.success = true → c.path_length ≤ x.path_length) ∧
      ((∀ x ∈ sols, x.success = false) → c.success = false) := by
  rcases sols with _ | ⟨x, xs⟩
  · exact absurd rfl hne
  · obtain ⟨hmem, hmin⟩ := foldl_shortest xs x
    refine ⟨_, rfl, rfl, hmem, ?_, ?_, ?_⟩
    · rintro ⟨z, hz, hs⟩
      exact (hmin z hz hs).1
    · intro z hz hs
      exact (hmin z hz hs).2
    · intro hall
      exact hall _ hmem

/-- Witness for C19: a failed candidate and two successful ones. -/
theorem C19_choose_shortest_witness :
    ∃ c, FocusActionServer.choose_shortest threeCandidates = some c ∧
      MoveZAngleActionServer.choose_shortest threeCandidates = some c ∧
      c ∈ threeCandidates ∧
      ((∃ x ∈ threeCandidates, x.success = true) → c.success = true) ∧
      (∀ x ∈ threeCandidates, x.success = true → c.path_length ≤ x.path_length) ∧
      ((∀ x ∈ threeCandidates, x.success = false) → c.success = false) :=
  C19_choose_shortest threeCandidates (by decide)

/-- C20, as stated, fails. An activate request while the console's mirror already shows the
gate active returns success, and an activate request while the mirror shows it inactive
returns failure. -/
theorem C20_success_when_mirror_matches :
    (scan3dCallback true mirrorActive).2 = true ∧
    (scan3dCallback true State.init).2 = false := by
  decide

/-- C20, amended. The service returns success exactly when the console's mirror
`scan_3d_read_` equals the requested state, and failure otherwise, for activate and for
deactivate requests. -/
theorem C20_scan3d_success_iff_mirror_matches (activate : Bool) (s : State) :
    (scan3dCallback activate s).2 = (s.scan_3d_read_ == activate) := by
  unfold scan3dCallback
  cases activate <;> cases h : s.scan_3d_read_ <;> cases h2 : s.triggered_service_ <;>
    simp [h, h2, trigger_apply_config]

/-! ## Claims C21 to C30 -/

theorem handleAction_scan_trigger (s : State) (h : s.scan_trigger_ = true) :
    (handleAction s).1.scan_trigger_ = true := by
  unfold handleAction
  split <;> (try split_ifs) <;> simp [trigger_scan, h]

theorem syncScanGate_scan_trigger (s : State) :
    (syncScanGate s).scan_trigger_ = s.scan_trigger_ := by
  unfold syncScanGate
  split_ifs <;> rfl

theorem selectAction_scan_trigger (s : State) :
    match selectAction s with
    | .returned s1 => s1.scan_trigger_ = s.scan_trigger_
    | .resolved s1 => s1.scan_trigger_ = s.scan_trigger_
    | .outOfBounds => True := by
  rcases hr : s.full_scan_read_ with _ | _
  · rw [selectAction_manual s hr]
  · by_cases h : full_scan_recipe.length ≤ (s.pc_ + 1) % 2 ^ 32
    · rw [selectAction_recipe_done s hr h]
      exact syncScanGate_scan_trigger s
    · rcases hstep : full_scan_recipe[s.pc_]? with _ | step
      · unfold selectAction
        rw [if_pos hr]
        simp only [syncScanGate_pc]
        rw [if_neg h, hstep]
        trivial
      · rw [selectAction_recipe_step s hr (not_le.mp h) step hstep]
        exact syncScanGate_scan_trigger s

theorem mainLoop_scan_trigger (s : State) (h : s.scan_trigger_ = true)
    (r : State × List Effect) (hr : mainLoop s = some r) : r.1.scan_trigger_ = true := by
  unfold mainLoop at hr
  split_ifs at hr with hc
  · cases hr
    exact h
  · have hsel := selectAction_scan_trigger s
    rcases hs : selectAction s with s1 | s1 | _
    · rw [hs] at hr hsel
      cases hr
      exact hsel.trans h
    · rw [hs] at hr hsel
      cases hr
      exact handleAction_scan_trigger s1 (hsel.trans h)
    · rw [hs] at hr
      cases hr

theorem mainLoop_total (s : State) (hpc : s.pc_ + 1 < 2 ^ 32) :
    ∃ r, mainLoop s = some r := by
  unfold mainLoop
  split_ifs with hc
  · exact ⟨_, rfl⟩
  · rcases hr : s.full_scan_read_ with _ | _
    · rw [selectAction_manual s hr]
      exact ⟨_, rfl⟩
    · by_cases h : full_scan_recipe.length ≤ (s.pc_ + 1) % 2 ^ 32
      · rw [selectAction_recipe_done s hr h]
        exact ⟨_, rfl⟩
      · have hlt : s.pc_ < full_scan_recipe.length := by
          rw [Nat.mod_eq_of_lt hpc] at h
          omega
        rw [selectAction_recipe_step s hr (not_le.mp h) (full_scan_recipe[s.pc_])
          (List.getElem?_eq_getElem hlt)]
        exact ⟨_, rfl⟩

/-- C21. In every state with the scan trigger raised, an arbiter tick that completes (it
always does while `pc_ + 1` does not wrap), the subscriber callback, the cancel callback,
each of the four goal result callbacks and the two service handlers leave `scan_trigger_`
true; a timer callback lowers it exactly when the timer held in `apply_timer_` is the
uncanceled scan pulse timer. -/
theorem C21_scan_trigger_lowered_only_by_pulse_timer (s : State)
    (h : s.scan_trigger_ = true) :
    (∀ r, mainLoop s = some r → r.1.scan_trigger_ = true) ∧
    (s.pc_ + 1 < 2 ^ 32 → ∃ r, mainLoop s = some r) ∧
    (∀ msg, (subscriberCallback msg s).scan_trigger_ = true) ∧
    (∀ data, (cancelCallback data s).scan_trigger_ = true) ∧
    (∀ code, (focus_result_callback code s).scan_trigger_ = true) ∧
    (∀ yaw code, (move_z_result_callback yaw code s).scan_trigger_ = true) ∧
    (∀ code, (freedrive_result_callback code s).scan_trigger_ = true) ∧
    (∀ code, (reset_result_callback code s).scan_trigger_ = true) ∧
    (∀ activate, (scan3dCallback activate s).1.scan_trigger_ = true) ∧
    (deactivateFocusCallback s).1.scan_trigger_ = true ∧
    (∀ s1, apply_timer_callback s = some s1 →
      (s1.scan_trigger_ = false ↔ s.apply_timer_ = some ⟨.scan, false⟩)) := by
  refine ⟨mainLoop_scan_trigger s h, mainLoop_total s, fun _ => h, ?_, fun _ => h, ?_,
    fun _ => h, fun _ => h, ?_, ?_, ?_⟩
  · intro data
    unfold cancelCallback
    split_ifs <;> exact h
  · intro yaw code
    unfold move_z_result_callback
    split <;> exact h
  · intro activate
    unfold scan3dCallback
    simp only []
    split_ifs <;> exact h
  · unfold deactivateFocusCallback
    simp only []
    split_ifs <;> exact h
  · intro s1 h1
    unfold apply_timer_callback at h1
    split at h1
    · rename_i heq
      cases h1
      simp [heq]
    · rename_i heq
      cases h1
      simp [heq, h]
    · cases h1

/-- Witness for C21: the state right after `trigger_scan` ran in the initial state. -/
theorem C21_scan_trigger_lowered_only_by_pulse_timer_witness :
    (∀ r, mainLoop pulseRaised = some r → r.1.scan_trigger_ = true) ∧
    (∀ s1, apply_timer_callback pulseRaised = some s1 →
      (s1.scan_trigger_ = false ↔ pulseRaised.apply_timer_ = some ⟨.scan, false⟩)) :=
  ⟨(C21_scan_trigger_lowered_only_by_pulse_timer pulseRaised rfl).1,
   (C21_scan_trigger_lowered_only_by_pulse_timer pulseRaised rfl).2.2.2.2.2.2.2.2.2.2⟩

theorem handleAction_pc_focus (s : State) (h : s.current_action_ = .Focus) :
    (handleAction s).1.pc_ = s.pc_ := by
  simp only [handleAction, h]
  split_ifs <;> rfl

theorem handleAction_pc_move_z (s : State) (h : s.current_action_ = .MoveZangle) :
    (handleAction s).1.pc_ = s.pc_ := by
  simp only [handleAction, h]
  split_ifs <;> rfl

theorem handleAction_pc_scan (s : State) (h : s.current_action_ = .Scan) :
    (handleAction s).1.pc_ =
      if s.previous_action_ = .Scan ∧ s.scan_state_ = .IDLE then (s.pc_ + 1) % 2 ^ 32
      else s.pc_ := by
  simp only [handleAction, h]
  by_cases hp : s.previous_action_ = .Scan
  · by_cases hi : s.scan_state_ = .IDLE
    · simp [hp, hi]
    · simp [hp, hi]
  · by_cases hi : s.scan_state_ = .IDLE
    · simp [hp, hi, trigger_scan]
    · simp [hp, hi]

theorem syncScanGate_idle_iff (s : State) :
    (syncScanGate s).scan_state_ = .IDLE ↔
      (s.scan_state_ = .IDLE ∨ s.scan_trigger_read_ ≠ s.scan_trigger_store_) := by
  unfold syncScanGate
  split_ifs with h
  · simp [h]
  · simp [h]

theorem mainLoop_recipe_step (s : State) (step : Step)
    (hc : s.cancel_action_ = false) (hr : s.full_scan_read_ = true)
    (hpc : s.pc_ + 1 < full_scan_recipe.length)
    (hstep : full_scan_recipe[s.pc_]? = some step) :
    mainLoop s = some (handleAction (loadStep step (syncScanGate s))) := by
  have hlt : (s.pc_ + 1) % 2 ^ 32 < full_scan_recipe.length := by
    rw [recipe_length] at hpc ⊢
    rw [Nat.mod_eq_of_lt (by omega)]
    exact hpc
  simp only [mainLoop, hc, selectAction_recipe_step s hr hlt step hstep, Bool.false_eq_true,
    if_false]

/-- C22, as stated, fails: after the recipe has triggered its first Scan step the gate is
Busy with the cursor at 1; once the console's scan-trigger flag differs from the stored copy
the next tick advances the cursor to 2 although the gate was Busy when the tick began. -/
theorem C22_cursor_advances_from_busy_gate :
    (Sys.init.run scanAcknowledged).map
        (fun sys => (sys.node.scan_state_, sys.node.previous_action_, sys.node.pc_)) =
      some (.BUSY, .Scan, 1) ∧
    (Sys.init.run (scanAcknowledged ++ [.tick])).map (fun sys => sys.node.pc_) = some 2 := by
  decide

/-- C22, amended. In a tick that plays a recipe step (recipe active, no cancel, cursor
before the last entry): on a Focus or MoveZangle step the cursor is unchanged; on a Scan
step the cursor becomes `pc_ + 1` if and only if the previous action is Scan and either the
gate state is Idle or the console's scan-trigger flag differs from the stored copy (lines
583-586 then force the gate to Idle before the switch tests it); it is otherwise unchanged,
in particular when the gate is Busy and the console's flag equals the stored copy. -/
theorem C22_tick_advances_cursor_only_on_idle_scan_step (s : State) (step : Step)
    (hc : s.cancel_action_ = false) (hr : s.full_scan_read_ = true)
    (hpc : s.pc_ + 1 < full_scan_recipe.length)
    (hstep : full_scan_recipe[s.pc_]? = some step) :
    ∃ s1 out, mainLoop s = some (s1, out) ∧
      (step.action = .Focus ∨ step.action = .MoveZangle → s1.pc_ = s.pc_) ∧
      (step.action = .Scan →
        (s1.pc_ = s.pc_ + 1 ↔
          s.previous_action_ = .Scan ∧
            (s.scan_state_ = .IDLE ∨ s.scan_trigger_read_ ≠ s.scan_trigger_store_)) ∧
        (s1.pc_ = s.pc_ ∨ s1.pc_ = s.pc_ + 1) ∧
        (s.scan_state_ = .BUSY → s.scan_trigger_read_ = s.scan_trigger_store_ →
          s1.pc_ = s.pc_)) := by
  refine ⟨(handleAction (loadStep step (syncScanGate s))).1,
    (handleAction (loadStep step (syncScanGate s))).2,
    mainLoop_recipe_step s step hc hr hpc hstep, ?_, ?_⟩
  · rintro (h | h)
    · rw [handleAction_pc_focus _ (by exact h)]
      exact syncScanGate_pc s
    · rw [handleAction_pc_move_z _ (by exact h)]
      exact syncScanGate_pc s
  · intro h
    have hmod : (s.pc_ + 1) % 2 ^ 32 = s.pc_ + 1 := by
      rw [recipe_length] at hpc
      exact Nat.mod_eq_of_lt (by omega)
    have hpc1 := handleAction_pc_scan (loadStep step (syncScanGate s)) (by exact h)
    have hprev : (loadStep step (syncScanGate s)).previous_action_ = s.previous_action_ :=
      (syncScanGate_frame s).1
    have hst : (loadStep step (syncScanGate s)).scan_state_ = (syncScanGate s).scan_state_ :=
      rfl
    have hpc0 : (loadStep step (syncScanGate s)).pc_ = s.pc_ := syncScanGate_pc s
    rw [hprev, hst, hpc0, hmod] at hpc1
    rw [hpc1]
    have hidle := syncScanGate_idle_iff s
    by_cases hcond : s.previous_action_ = .Scan ∧ (syncScanGate s).scan_state_ = .IDLE
    · rw [if_pos hcond]
      refine ⟨⟨fun _ => ⟨hcond.1, hidle.mp hcond.2⟩, fun _ => rfl⟩, Or.inr rfl, ?_⟩
      intro hb he
      rcases hidle.mp hcond.2 with h1 | h1
      · rw [h1] at hb
        cases hb
      · exact absurd he h1
    · rw [if_neg hcond]
      refine ⟨⟨fun hx => ?_, fun hx => absurd ⟨hx.1, hidle.mpr hx.2⟩ hcond⟩, Or.inl rfl,
        fun _ _ => rfl⟩
      omega

/-- Witness for C22 (amended): the recipe on its first Scan step, scan triggered, gate
idle. -/
theorem C22_tick_advances_cursor_only_on_idle_scan_step_witness :
    ∃ s1 out, mainLoop scanAwaited = some (s1, out) ∧
      ((⟨.Scan, .OCTA, 0⟩ : Step).action = .Focus ∨
        (⟨.Scan, .OCTA, 0⟩ : Step).action = .MoveZangle → s1.pc_ = scanAwaited.pc_) ∧
      ((⟨.Scan, .OCTA, 0⟩ : Step).action = .Scan →
        (s1.pc_ = scanAwaited.pc_ + 1 ↔
          scanAwaited.previous_action_ = .Scan ∧
            (scanAwaited.scan_state_ = .IDLE ∨
              scanAwaited.scan_trigger_read_ ≠ scanAwaited.scan_trigger_store_)) ∧
        (s1.pc_ = scanAwaited.pc_ ∨ s1.pc_ = scanAwaited.pc_ + 1) ∧
        (scanAwaited.scan_state_ = .BUSY →
          scanAwaited.scan_trigger_read_ = scanAwaited.scan_trigger_store_ →
          s1.pc_ = scanAwaited.pc_)) :=
  C22_tick_advances_cursor_only_on_idle_scan_step scanAwaited ⟨.Scan, .OCTA, 0⟩ rfl rfl
    (by decide) rfl

/-- C23, as stated, fails: after the recipe has raised the scan pulse and the pulse timer has
fired, the scan trigger is false but the gate state is still Busy. -/
theorem C23_gate_still_busy_after_pulse_timer :
    (Sys.init.run scanPulse).map (fun sys => (sys.node.scan_trigger_, sys.node.scan_state_)) =
      some (false, .BUSY) := by
  decide

/-- C23, amended. When the pulse timer armed by `trigger_scan` fires, the scan trigger
becomes false and the gate state stays Busy (and the timer is spent); the gate is Idle at the
switch of a recipe tick exactly when it was Idle already or the console's scan-trigger flag
differs from the stored copy, and a tick whose current action is None sets it Idle. -/
theorem C23_pulse_timer_clears_trigger_and_keeps_gate_busy (s : State) :
    (∃ s1, apply_timer_callback (trigger_scan s) = some s1 ∧
      s1.scan_trigger_ = false ∧ s1.scan_state_ = .BUSY ∧ apply_timer_callback s1 = none) ∧
    ((syncScanGate s).scan_state_ = .IDLE ↔
      (s.scan_state_ = .IDLE ∨ s.scan_trigger_read_ ≠ s.scan_trigger_store_)) ∧
    (s.current_action_ = .None → (handleAction s).1.scan_state_ = .IDLE) := by
  refine ⟨⟨_, rfl, rfl, rfl, rfl⟩, syncScanGate_idle_iff s, ?_⟩
  intro h
  simp only [handleAction, h]

/-- C26. The two pulses share the one timer slot. For every state, `trigger_apply_config`
called while the scan pulse timer of `trigger_scan` is pending leaves the scan trigger true
with the apply-config timer in the slot; when that timer fires the scan trigger is still
true and no timer is left to fire. Symmetrically `trigger_scan` during a pending
apply-config pulse leaves `apply_config_` true for good. Such a state is reachable: a Reset
result arriving right after the recipe raised the scan pulse. -/
theorem C26_pulses_share_one_timer_slot (s : State) :
    ((trigger_apply_config (trigger_scan s)).scan_trigger_ = true ∧
      (trigger_apply_config (trigger_scan s)).apply_timer_ = some ⟨.apply_config, false⟩ ∧
      ∃ s1, apply_timer_callback (trigger_apply_config (trigger_scan s)) = some s1 ∧
        s1.scan_trigger_ = true ∧ apply_timer_callback s1 = none) ∧
    ((trigger_scan (trigger_apply_config s)).apply_config_ = true ∧
      (trigger_scan (trigger_apply_config s)).apply_timer_ = some ⟨.scan, false⟩ ∧
      ∃ s1, apply_timer_callback (trigger_scan (trigger_apply_config s)) = some s1 ∧
        s1.apply_config_ = true ∧ apply_timer_callback s1 = none) ∧
    (Sys.init.run sharedTimerRun).map
        (fun sys => (sys.node.scan_trigger_, sys.node.apply_timer_,
          (apply_timer_callback sys.node).isSome)) =
      some (true, some ⟨.apply_config, true⟩, false) := by
  refine ⟨⟨rfl, rfl, _, rfl, rfl, rfl⟩, ⟨rfl, rfl, _, rfl, rfl, rfl⟩, ?_⟩
  decide

theorem syncScanGate_frame_focus (s : State) :
    (syncScanGate s).end_state_ = s.end_state_ ∧
    (syncScanGate s).cancel_action_ = s.cancel_action_ ∧
    (syncScanGate s).full_scan_read_ = s.full_scan_read_ ∧
    (syncScanGate s).full_scan_ = true ∧
    (syncScanGate s).angle_tolerance_ = s.angle_tolerance_ ∧
    (syncScanGate s).z_tolerance_ = s.z_tolerance_ ∧
    (syncScanGate s).z_height_ = s.z_height_ := by
  unfold syncScanGate
  split_ifs <;> simp

theorem handleAction_focus_dispatch (t : State) (hcur : t.current_action_ = .Focus)
    (haf : t.autofocus_ = true) (he : t.end_state_ = false)
    (hprev : t.previous_action_ ≠ .Focus) :
    handleAction t =
      ({ t with previous_action_ := .Focus },
       [.sendFocusGoal t.angle_tolerance_ t.z_tolerance_ t.z_height_]) := by
  have hne : t.previous_action_ ≠ t.current_action_ := by rw [hcur]; exact hprev
  simp only [handleAction, hcur]
  rw [if_pos (by rw [haf, he]; rfl), if_pos (hcur ▸ hne)]

/-- C28. A Succeeded MoveZangle result whose goal yaw is 0 lowers `circle_state_` by 1 and
leaves `angle_` unchanged. Yaw 0 is what a dispatch sends for "next" or "previous" with
`num_pt_ = 0` and for "home" at accumulated angle 0; from the initial state, "next" with
`num_pt = 0` followed by success, and "home" followed by success, both end with lap counter
0 and angle 0. -/
theorem C28_zero_yaw_success_lowers_lap_counter (s : State) :
    (move_z_result_callback 0 .SUCCEEDED s).circle_state_ = s.circle_state_ - 1 ∧
    (move_z_result_callback 0 .SUCCEEDED s).angle_ = s.angle_ ∧
    (s.num_pt_ = 0 → s.next_ = true ∨ s.previous_ = true → dispatchYaw s = 0) ∧
    (s.next_ = false → s.previous_ = false → s.home_ = true → s.angle_ = 0 →
      dispatchYaw s = 0) ∧
    (Sys.init.run zeroYawNext).map
        (fun sys => (sys.node.circle_state_, sys.node.angle_, sys.sent)) =
      some (0, 0, [.sendMoveZAngleGoal 0 0 0]) ∧
    (Sys.init.run zeroYawHome).map
        (fun sys => (sys.node.circle_state_, sys.node.angle_, sys.sent)) =
      some (0, 0, [.sendMoveZAngleGoal 0 0 0]) := by
  refine ⟨?_, ?_, ?_, ?_, by decide!, by decide!⟩
  · simp [move_z_result_callback]
  · simp [move_z_result_callback]
  · intro hn hf
    rcases hnx : s.next_ with _ | _
    · rcases hf with hf | hf
      · rw [hnx] at hf
        cases hf
      · simp [dispatchYaw, angleIncrement, hn, hnx, hf]
    · simp [dispatchYaw, angleIncrement, hn, hnx]
  · intro h1 h2 h3 h4
    simp [dispatchYaw, h1, h2, h3, h4]

/-- C29. For every state with the cancel request set, the recipe input asserted and
`end_state_` false: the cancel tick leaves `full_scan_read_` true (lowering the outward
`full_scan_` flag and resetting the cursor to 0), and the very next tick plays recipe step
0: it raises `full_scan_` again, keeps the cursor at 0 and sends a new Focus goal. -/
theorem C29_cancel_tick_keeps_recipe_input (s : State)
    (hc : s.cancel_action_ = true) (hr : s.full_scan_read_ = true)
    (he : s.end_state_ = false) :
    ∃ s1 out1 s2, mainLoop s = some (s1, out1) ∧
      s1.full_scan_read_ = true ∧ s1.full_scan_ = false ∧ s1.pc_ = 0 ∧
      mainLoop s1 =
        some (s2, [.sendFocusGoal s.angle_tolerance_ s.z_tolerance_ s.z_height_]) ∧
      s2.full_scan_ = true ∧ s2.pc_ = 0 ∧ s2.full_scan_read_ = true ∧
      s2.current_action_ = .Focus ∧ s2.previous_action_ = .Focus := by
  have hstep : full_scan_recipe[(cancelBranch s).1.pc_]? = some ⟨.Focus, .ROBOT, 0⟩ := rfl
  have hpc : (cancelBranch s).1.pc_ + 1 < full_scan_recipe.length := by
    show 0 + 1 < full_scan_recipe.length
    decide
  obtain ⟨h1, -, h3, h4, h5, h6, h7⟩ := syncScanGate_frame_focus (cancelBranch s).1
  have hprev := (syncScanGate_frame (cancelBranch s).1).1
  have hd := handleAction_focus_dispatch
    (loadStep ⟨.Focus, .ROBOT, 0⟩ (syncScanGate (cancelBranch s).1)) rfl rfl
    (h1.trans he) (by
      show (syncScanGate (cancelBranch s).1).previous_action_ ≠ .Focus
      rw [hprev]
      show UserAction.None ≠ .Focus
      decide)
  refine ⟨(cancelBranch s).1, (cancelBranch s).2,
    { loadStep ⟨.Focus, .ROBOT, 0⟩ (syncScanGate (cancelBranch s).1) with
      previous_action_ := .Focus }, ?_, hr, ?_, rfl, ?_, h4, syncScanGate_pc _,
    h3.trans hr, rfl, rfl⟩
  · simp only [mainLoop, hc, if_true]
  · show (if s.full_scan_read_ then false else s.full_scan_) = false
    rw [hr]
    rfl
  · rw [mainLoop_recipe_step (cancelBranch s).1 ⟨.Focus, .ROBOT, 0⟩ rfl hr hpc hstep, hd]
    have e5 : (loadStep ⟨.Focus, .ROBOT, 0⟩ (syncScanGate (cancelBranch s).1)).angle_tolerance_ =
        s.angle_tolerance_ := h5
    have e6 : (loadStep ⟨.Focus, .ROBOT, 0⟩ (syncScanGate (cancelBranch s).1)).z_tolerance_ =
        s.z_tolerance_ := h6
    have e7 : (loadStep ⟨.Focus, .ROBOT, 0⟩ (syncScanGate (cancelBranch s).1)).z_height_ =
        s.z_height_ := h7
    have hl : [Effect.sendFocusGoal
          (loadStep ⟨.Focus, .ROBOT, 0⟩ (syncScanGate (cancelBranch s).1)).angle_tolerance_
          (loadStep ⟨.Focus, .ROBOT, 0⟩ (syncScanGate (cancelBranch s).1)).z_tolerance_
          (loadStep ⟨.Focus, .ROBOT, 0⟩ (syncScanGate (cancelBranch s).1)).z_height_] =
        [Effect.sendFocusGoal s.angle_tolerance_ s.z_tolerance_ s.z_height_] := by
      rw [e5, e6, e7]
    exact congrArg
      (fun l => some (({ loadStep ⟨.Focus, .ROBOT, 0⟩ (syncScanGate (cancelBranch s).1) with
        previous_action_ := .Focus } : State), l)) hl

/-- Witness for C29: a cancel request at recipe step 7 with the full-scan flag held. -/
theorem C29_cancel_tick_keeps_recipe_input_witness :
    ∃ s1 out1 s2, mainLoop cancelWithRecipeHeld = some (s1, out1) ∧
      s1.full_scan_read_ = true ∧ s1.full_scan_ = false ∧ s1.pc_ = 0 ∧
      mainLoop s1 =
        some (s2, [.sendFocusGoal cancelWithRecipeHeld.angle_tolerance_
          cancelWithRecipeHeld.z_tolerance_ cancelWithRecipeHeld.z_height_]) ∧
      s2.full_scan_ = true ∧ s2.pc_ = 0 ∧ s2.full_scan_read_ = true ∧
      s2.current_action_ = .Focus ∧ s2.previous_action_ = .Focus :=
  C29_cancel_tick_keeps_recipe_input cancelWithRecipeHeld rfl rfl rfl

theorem checkAngle_skip (k : ℚ) (srv : FocusActionServer)
    (hskip : srv.skip_angle_tolerance_ = true) :
    (FocusActionServer.checkAngle k srv).angle_focused_ =
      (FocusActionServer.tol_measure k srv.roll_ srv.pitch_ srv.angle_tolerance_ ||
        srv.planning_ || srv.angle_focused_) := by
  rcases h1 : FocusActionServer.tol_measure k srv.roll_ srv.pitch_ srv.angle_tolerance_
    with _ | _ <;>
  rcases h2 : srv.planning_ with _ | _ <;>
  rcases h3 : srv.angle_focused_ with _ | _ <;>
  simp [FocusActionServer.checkAngle, h1, h2, h3, hskip]

theorem requestPlanning_angle_focused (srv : FocusActionServer) :
    (FocusActionServer.requestPlanning srv).angle_focused_ = srv.angle_focused_ ∧
    (srv.angle_focused_ = false → (FocusActionServer.requestPlanning srv).planning_ = true) := by
  rcases h1 : srv.angle_focused_ with _ | _ <;>
  rcases h2 : srv.z_focused_ with _ | _ <;>
  simp [FocusActionServer.requestPlanning, h1, h2]

theorem checkHeight_angle_focused (srv : FocusActionServer) :
    (FocusActionServer.checkHeight srv).angle_focused_ = srv.angle_focused_ := by
  unfold FocusActionServer.checkHeight
  split_ifs <;> rfl

/-- C25, as stated, fails: with the default policy (`skip_angle_tolerance_` true) and every
measurement one radian off against a tolerance of one degree, the goal ends Succeeded with
`angle_focused_` true although `tol_measure` holds at no iteration: the first iteration
requests a correction and the second declares the angle focused. -/
theorem C25_angle_declared_focused_without_reading :
    (FocusActionServer.execute (tiltedEnv 1000) 5 alignGoal 0).map
        (fun r => (r.outcome, r.server.angle_focused_)) = some (.succeeded, true) ∧
    alignGoal.skip_angle_tolerance_ = true ∧ alignGoal.planning_ = false ∧
    ∀ t, FocusActionServer.tol_measure (tiltedEnv 1000).rad_per_deg
      (-((tiltedEnv 1000).measure t).tmp_pitch) ((tiltedEnv 1000).measure t).tmp_roll
      alignGoal.angle_tolerance_ = false := by
  refine ⟨by decide!, rfl, rfl, fun t => ?_⟩
  show FocusActionServer.tol_measure (355 / 113 / 180 : ℚ) (-1) 0 1 = false
  decide!

/-- C25, amended. With the skip_angle_tolerance policy enabled, at every loop iteration of
`execute` the angle check leaves `angle_focused_` true exactly when `tol_measure` holds at
this iteration, or `angle_focused_` was already true, or `planning_` was true when the
iteration began; the rest of the decision part of the iteration does not change
`angle_focused_`, and an iteration that leaves it false sets `planning_`, so that the next
iteration declares the angle focused whatever it reads. -/
theorem C25_angle_focused_by_reading_or_pending_correction (k : ℚ)
    (srv : FocusActionServer) (hskip : srv.skip_angle_tolerance_ = true) :
    (FocusActionServer.checkAngle k srv).angle_focused_ =
      (FocusActionServer.tol_measure k srv.roll_ srv.pitch_ srv.angle_tolerance_ ||
        srv.planning_ || srv.angle_focused_) ∧
    (FocusActionServer.requestPlanning
      (FocusActionServer.checkHeight (FocusActionServer.checkAngle k srv))).angle_focused_ =
      (FocusActionServer.checkAngle k srv).angle_focused_ ∧
    ((FocusActionServer.checkAngle k srv).angle_focused_ = false →
      (FocusActionServer.requestPlanning
        (FocusActionServer.checkHeight (FocusActionServer.checkAngle k srv))).planning_ =
        true) := by
  obtain ⟨h1, h2⟩ := requestPlanning_angle_focused
    (FocusActionServer.checkHeight (FocusActionServer.checkAngle k srv))
  rw [checkHeight_angle_focused] at h1 h2
  exact ⟨checkAngle_skip k srv hskip, h1, h2⟩

/-- Witness for C25 (amended): a correction is pending and the reading is one radian off. -/
theorem C25_angle_focused_by_reading_or_pending_correction_witness :
    (FocusActionServer.checkAngle (355 / 113 / 180)
        (FocusActionServer.takeMeasurement ⟨0, 1, 0, 100⟩ planningPending)).angle_focused_ =
      (FocusActionServer.tol_measure (355 / 113 / 180)
          (FocusActionServer.takeMeasurement ⟨0, 1, 0, 100⟩ planningPending).roll_
          (FocusActionServer.takeMeasurement ⟨0, 1, 0, 100⟩ planningPending).pitch_
          (FocusActionServer.takeMeasurement ⟨0, 1, 0, 100⟩ planningPending).angle_tolerance_ ||
        (FocusActionServer.takeMeasurement ⟨0, 1, 0, 100⟩ planningPending).planning_ ||
        (FocusActionServer.takeMeasurement ⟨0, 1, 0, 100⟩ planningPending).angle_focused_) ∧
    (FocusActionServer.requestPlanning
      (FocusActionServer.checkHeight (FocusActionServer.checkAngle (355 / 113 / 180)
        (FocusActionServer.takeMeasurement ⟨0, 1, 0, 100⟩ planningPending)))).angle_focused_ =
      (FocusActionServer.checkAngle (355 / 113 / 180)
        (FocusActionServer.takeMeasurement ⟨0, 1, 0, 100⟩ planningPending)).angle_focused_ ∧
    ((FocusActionServer.checkAngle (355 / 113 / 180)
        (FocusActionServer.takeMeasurement ⟨0, 1, 0, 100⟩ planningPending)).angle_focused_ =
        false →
      (FocusActionServer.requestPlanning
        (FocusActionServer.checkHeight (FocusActionServer.checkAngle (355 / 113 / 180)
          (FocusActionServer.takeMeasurement ⟨0, 1, 0, 100⟩ planningPending)))).planning_ =
        true) :=
  C25_angle_focused_by_reading_or_pending_correction (355 / 113 / 180)
    (FocusActionServer.takeMeasurement ⟨0, 1, 0, 100⟩ planningPending) rfl

/-- C30. `execute` hands the loop the members with only `angle_focused_` and `z_focused_`
cleared, so `planning_` is what the previous goal left. Under the skip_angle_tolerance
policy an iteration that starts with `planning_` true and reads an out-of-tolerance angle
sets `angle_focused_` true and clears `planning_`, and with `planning_` false the planning
stage does nothing. Concretely: a first goal canceled after its first iteration requested a
correction ends with `planning_` true; the next goal, started from those members with every
angle reading one radian off and the height on target, ends Succeeded after 15 queries,
which leaves none for planning or executing a trajectory. -/
theorem C30_stale_planning_flag_lets_next_goal_succeed :
    (∀ (env : FocusEnv) (fuel : Nat) (srv : FocusActionServer) (t : Nat),
      is_active (env.status t) = true →
      FocusActionServer.execute env fuel srv t =
        FocusActionServer.whileLoop env fuel
          { srv with angle_focused_ := false, z_focused_ := false } (t + 1) ∧
      ({ srv with angle_focused_ := false, z_focused_ := false } :
        FocusActionServer).planning_ = srv.planning_) ∧
    (∀ (k : ℚ) (srv : FocusActionServer), srv.skip_angle_tolerance_ = true →
      srv.planning_ = true →
      FocusActionServer.tol_measure k srv.roll_ srv.pitch_ srv.angle_tolerance_ = false →
      (FocusActionServer.checkAngle k srv).angle_focused_ = true ∧
      (FocusActionServer.checkAngle k srv).planning_ = false) ∧
    (∀ (env : FocusEnv) (srv : FocusActionServer) (t : Nat), srv.planning_ = false →
      FocusActionServer.planAndExecute env srv t = .cont srv t) ∧
    (FocusActionServer.execute (tiltedEnv 14) 5 alignGoal 0).map
        (fun r => (r.outcome, r.server.planning_, r.server.skip_angle_tolerance_)) =
      some (.canceled, true, true) ∧
    ((FocusActionServer.execute (tiltedEnv 14) 5 alignGoal 0).bind
        (fun r => FocusActionServer.execute (tiltedEnv 1000) 5 r.server 0)).map
        (fun r => (r.outcome, r.server.angle_focused_, r.clock)) =
      some (.succeeded, true, 15) ∧
    ∀ t, FocusActionServer.tol_measure (tiltedEnv 1000).rad_per_deg
      (-((tiltedEnv 1000).measure t).tmp_pitch) ((tiltedEnv 1000).measure t).tmp_roll
      alignGoal.angle_tolerance_ = false := by
  refine ⟨?_, ?_, ?_, by decide!, by decide!, fun t => ?_⟩
  · intro env fuel srv t h
    refine ⟨?_, rfl⟩
    unfold FocusActionServer.execute
    rw [h]
    rfl
  · intro k srv h1 h2 h3
    simp [FocusActionServer.checkAngle, h1, h2, h3]
  · intro env srv t h
    simp [FocusActionServer.planAndExecute, h]
  · show FocusActionServer.tol_measure (355 / 113 / 180 : ℚ) (-1) 0 1 = false
    decide!

end Coordinator
